import Mathlib

/-!
# `kn source ping update`: the selective update of a PingSource

A shallow embedding of `RunE` of `NewPingUpdateCommand`
(`pkg/kn/commands/source/ping/update.go`).  The closure is translated
statement by statement into a pure function that returns the error value of
the Go function together with the ordered log of the calls it made
(store calls, sink resolution, payload validation, builder setters and the
confirmation written to the command's output), each with the value it
returned.

Collaborators that live outside the source file (the store client, the sink
resolver, `getDataFields`, `MapFromArrayAllowingSingles`, Go's `%q` verb) are
parameters of the embedding.  The resource builder of
`pkg/sources/v1beta2` and `util.ParseMinusSuffix` are modelled from the
specification and marked as such.
-/

namespace PingUpdate

/-! ## Go values -/

/-- A Go `error` value: the dynamic type behind the interface and the text its
`Error()` method returns. -/
structure GoError where
  dynType : String
  msg : String
  deriving DecidableEq, Repr

/-- Method `Error()` of a Go error. -/
def GoError.Error (e : GoError) : String := e.msg

/-- Go's `errors.New`; `fmt.Errorf` without a `%w` verb returns the same kind of
value. -/
def errorsNew (s : String) : GoError := ⟨"*errors.errorString", s⟩

/-- A Go `map[string]string`, kept as its list of entries.  Lookups return the
first entry of a key. -/
abbrev StrMap := List (String × String)

/-- Go's `m[k]` with the comma-ok form: the value of `k`, if any. -/
def mapGet (k : String) : StrMap → Option String
  | [] => none
  | (k', v) :: m => if k' = k then some v else mapGet k m

/-- Go's `m[k] = v`: overwrite the entry of `k`, or insert one. -/
def mapSet (k v : String) : StrMap → StrMap
  | [] => [(k, v)]
  | (k', v') :: m => if k' = k then (k, v) :: m else (k', v') :: mapSet k v m

/-- Go's `delete(m, k)`: no entry of `k` remains; deleting an absent key changes
nothing. -/
def mapDelete (k : String) : StrMap → StrMap
  | [] => []
  | (k', v') :: m => if k' = k then mapDelete k m else (k', v') :: mapDelete k m

/-- The keys of a map are unique. -/
def UniqueKeys (m : StrMap) : Prop := (m.map Prod.fst).Nodup

/-! ## Data model -/

/-- The destination descriptor a sink reference resolves to; opaque to the
update. -/
structure Destination where
  descriptor : String
  deriving DecidableEq, Repr

/-- Modelled from the spec: the PingSource resource type, whose declaration is
not part of the source file.  The fields are those of section 3 (schedule, the
two payload variants, sink, ceOverrides, deletionTimestamp); `other` stands for
everything else the stored object carries, which the update never reads. -/
structure PingSource where
  schedule : String
  data : String
  dataBase64 : String
  sink : Destination
  ceOverrides : StrMap
  deletionTimestamp : Option String
  other : List (String × String)
  deriving DecidableEq, Repr

/-- Method `GetDeletionTimestamp() != nil` of the fetched object. -/
def PingSource.markedForDeletion (s : PingSource) : Bool := s.deletionTimestamp.isSome

/-! ## The resource builder (`pkg/sources/v1beta2`) -/

/-- Modelled from the spec: the PingSource builder, whose code is not part of
the source file.  It holds an internal copy of the resource (section 4.2). -/
structure PingSourceBuilder where
  pingSource : PingSource
  deriving DecidableEq, Repr

/-- Modelled from the spec: `NewPingSourceBuilderFromExisting`, missing from the
source file: "constructed from an existing Resource snapshot", every field
copied. -/
def NewPingSourceBuilderFromExisting (source : PingSource) : PingSourceBuilder :=
  ⟨source⟩

/-- Modelled from the spec: setter `Schedule`, missing from the source file:
"overwrites exactly the targeted field on an internal mutable copy". -/
def PingSourceBuilder.Schedule (b : PingSourceBuilder) (schedule : String) : PingSourceBuilder :=
  { b with pingSource := { b.pingSource with schedule := schedule } }

/-- Modelled from the spec: setter `Data`, missing from the source file; it
overwrites exactly the raw-text payload variant. -/
def PingSourceBuilder.Data (b : PingSourceBuilder) (data : String) : PingSourceBuilder :=
  { b with pingSource := { b.pingSource with data := data } }

/-- Modelled from the spec: setter `DataBase64`, missing from the source file;
it overwrites exactly the base64 payload variant. -/
def PingSourceBuilder.DataBase64 (b : PingSourceBuilder) (data : String) : PingSourceBuilder :=
  { b with pingSource := { b.pingSource with dataBase64 := data } }

/-- Modelled from the spec: setter `Sink`, missing from the source file; it
overwrites exactly the sink. -/
def PingSourceBuilder.Sink (b : PingSourceBuilder) (sink : Destination) : PingSourceBuilder :=
  { b with pingSource := { b.pingSource with sink := sink } }

/-- Modelled from the spec: `Build`, missing from the source file: returns the
resource value accumulated so far. -/
def PingSourceBuilder.Build (b : PingSourceBuilder) : PingSource := b.pingSource

/-! ## The override-map merger (section 4.1) -/

/-- Modelled from the spec: the reserved removal suffix `"-"` of the override
merge input (section 3). -/
def removalSuffix : List Char := ['-']

/-- Modelled from the spec: the string "ends with the removal suffix". -/
def hasRemovalSuffix (s : String) : Bool := removalSuffix.isSuffixOf s.data

/-- Modelled from the spec: "suffix stripped" from a string that carries it. -/
def stripRemovalSuffix (s : String) : String :=
  if hasRemovalSuffix s then ⟨s.data.dropLast⟩ else s

/-- Modelled from the spec: step 1 of the merger, the `toSet` part: the entries
"whose value does not end with the removal suffix". -/
def toSet (requestedRaw : StrMap) : StrMap :=
  requestedRaw.filter (fun kv => !hasRemovalSuffix kv.2)

/-- Modelled from the spec: step 1 of the merger, the `toRemove` part: "keys
whose value ends with the removal suffix, suffix stripped from the key name
before comparison, value discarded". -/
def toRemove (requestedRaw : StrMap) : List String :=
  (requestedRaw.filter (fun kv => hasRemovalSuffix kv.2)).map (fun kv => stripRemovalSuffix kv.1)

/-- Modelled from the spec: `util.ParseMinusSuffix`, missing from the source
file: the "separate extraction step that identifies which keys in that map are
removal markers".  The Go function receives the map by reference and returns
the keys to remove; the pair is the map as the caller sees it afterwards
(`toSet`) and the returned list (`toRemove`). -/
def ParseMinusSuffix (m : StrMap) : StrMap × List String := (toSet m, toRemove m)

/-- Modelled from the spec: step 3 of the merger, "apply every `toSet` entry,
overwriting or inserting". -/
def applyEntries (entries : StrMap) (m : StrMap) : StrMap :=
  entries.foldl (fun acc kv => mapSet kv.1 kv.2 acc) m

/-- Modelled from the spec: step 4 of the merger, "delete every key found in
`toRemove`", present or not. -/
def deleteKeys (keys : List String) (m : StrMap) : StrMap :=
  keys.foldl (fun acc k => mapDelete k acc) m

/-- Modelled from the spec: setter `CloudEventOverrides`, missing from the
source file.  The source hands it the parsed request map and the keys to
remove, so steps 2 to 5 of the merger run here, on the builder's copy of the
existing map: start from the existing entries, apply every entry handed in,
then delete every key to remove. -/
def PingSourceBuilder.CloudEventOverrides (b : PingSourceBuilder) (ceo : StrMap)
    (toRemove : List String) : PingSourceBuilder :=
  { b with pingSource :=
      { b.pingSource with
        ceOverrides := deleteKeys toRemove (applyEntries ceo b.pingSource.ceOverrides) } }

/-- Modelled from the spec: the Override-Map Merger of section 4.1,
`merge(existing, requestedRaw)`: partition, copy, set, then remove. -/
def merge (existing requestedRaw : StrMap) : StrMap :=
  deleteKeys (toRemove requestedRaw) (applyEntries (toSet requestedRaw) existing)

/-! ## Collaborators of the command -/

/-- The dynamic client handed to the sink resolver; opaque. -/
structure DynamicClient where
  id : String
  deriving DecidableEq, Repr

/-- The PingSource store client (`pingSourceClient`) with the three methods
the command calls. -/
structure PingSourceClient where
  Namespace : String
  GetPingSource : String → Except GoError PingSource
  UpdatePingSource : PingSource → Option GoError

/-- The command parameters `p` as the closure uses them: `newPingSourceClient(p,
cmd)`, `p.GetNamespace(cmd)` and `p.NewDynamicClient(namespace)`. -/
structure KnParams where
  newPingSourceClient : Except GoError PingSourceClient
  GetNamespace : Except GoError String
  NewDynamicClient : String → Except GoError DynamicClient

/-- The cobra command as the closure uses it: `cmd.Flags().Changed(name)`. -/
structure Command where
  Changed : String → Bool

/-- Modelled from the spec: the payload part of the update request, "raw and
base64 payload"; the declaration of the flags structure is not part of the
source file. -/
structure PayloadFlags where
  raw : String
  base64 : String
  deriving DecidableEq, Repr

/-- The value `updateFlags`: the fields the closure reads (`schedule`,
`ceOverrides`) and the payload fields read by `getDataFields` alone. -/
structure PingUpdateFlags where
  schedule : String
  ceOverrides : List String
  payload : PayloadFlags
  deriving DecidableEq, Repr

/-- The value `sinkFlags` with its method `ResolveSink`, called with the
context, the dynamic client and the namespace. -/
structure SinkFlags where
  ResolveSink : DynamicClient → String → Except GoError Destination

/-- Functions the closure calls whose code is outside the source file:
`getDataFields`, `util.MapFromArrayAllowingSingles`, and the `%q` verb of Go's
`fmt` package. -/
structure Helpers where
  getDataFields : PingUpdateFlags → Except GoError (String × String)
  MapFromArrayAllowingSingles : List String → String → Except GoError StrMap
  quote : String → String

/-! ## The call log -/

deriving instance DecidableEq for Except

/-- One call made by the closure, with the value it returned. -/
inductive Event where
  | getPingSource (name : String) (result : Except GoError PingSource)
  | setSchedule (schedule : String)
  | getDataFields (result : Except GoError (String × String))
  | setData (data : String)
  | setDataBase64 (data : String)
  | resolveSink (ns : String) (result : Except GoError Destination)
  | setSink (sink : Destination)
  | setCloudEventOverrides (ceo : StrMap) (toRemove : List String)
  | updatePingSource (source : PingSource) (err : Option GoError)
  | output (text : String)
  deriving DecidableEq

/-- A call against the resource store. -/
def Event.isStoreCall : Event → Bool
  | .getPingSource _ _ => true
  | .updatePingSource _ _ => true
  | _ => false

/-- A `GetPingSource` call. -/
def Event.isGet : Event → Bool
  | .getPingSource _ _ => true
  | _ => false

/-- An `UpdatePingSource` call. -/
def Event.isUpdate : Event → Bool
  | .updatePingSource _ _ => true
  | _ => false

/-- A `ResolveSink` call. -/
def Event.isResolve : Event → Bool
  | .resolveSink _ _ => true
  | _ => false

/-- A builder setter call. -/
def Event.isSetter : Event → Bool
  | .setSchedule _ => true
  | .setData _ => true
  | .setDataBase64 _ => true
  | .setSink _ => true
  | .setCloudEventOverrides _ _ => true
  | _ => false

/-- A builder setter call for the payload. -/
def Event.isPayloadSetter : Event → Bool
  | .setData _ => true
  | .setDataBase64 _ => true
  | _ => false

/-- A write to the command's output. -/
def Event.isOutput : Event → Bool
  | .output _ => true
  | _ => false

/-- What one invocation of the closure leaves behind: the calls it made, in
order, and the `error` it returned (`none` is Go's `nil`). -/
structure Outcome where
  trace : List Event
  err : Option GoError
  deriving DecidableEq

/-! ## The closure `RunE` -/

/-- The error of the deletion guard (line 66). -/
def deletionError (name : String) : GoError :=
  errorsNew ("can't update ping source " ++ name ++ " because it has been marked for deletion")

/-- The error wrapping a payload validation failure (lines 76-77). -/
def dataFieldsError (h : Helpers) (name ns : String) (err : GoError) : GoError :=
  errorsNew ("cannot update PingSource " ++ h.quote name ++ " in namespace " ++
    h.quote ns ++ " because: " ++ err.Error)

/-- The confirmation written on success (line 102). -/
def confirmation (name ns : String) : String :=
  "Ping source '" ++ name ++ "' updated in namespace '" ++ ns ++ "'.\n"

/-- The calls `calls` were made, then the rest of the closure ran with outcome
`rest`. -/
def Outcome.after (calls : List Event) (rest : Outcome) : Outcome :=
  ⟨calls ++ rest.trace, rest.err⟩

/-- Lines 100-104: build, submit, confirm on success, return the store's
error. -/
def submit (client : PingSourceClient) (name : String) (b : PingSourceBuilder) : Outcome :=
  match client.UpdatePingSource b.Build with
  | none =>
    ⟨[Event.updatePingSource b.Build none, Event.output (confirmation name client.Namespace)],
      none⟩
  | some err => ⟨[Event.updatePingSource b.Build (some err)], some err⟩

/-- Lines 91-104: the `ce-override` field, then the submission. -/
def ceOverrideStage (h : Helpers) (cmd : Command) (updateFlags : PingUpdateFlags)
    (client : PingSourceClient) (name : String) (b : PingSourceBuilder) : Outcome :=
  if cmd.Changed "ce-override" then
    match h.MapFromArrayAllowingSingles updateFlags.ceOverrides "=" with
    | .error err => ⟨[], some err⟩
    | .ok ceOverridesMap =>
      (submit client name
          (b.CloudEventOverrides (ParseMinusSuffix ceOverridesMap).1
            (ParseMinusSuffix ceOverridesMap).2)).after
        [Event.setCloudEventOverrides (ParseMinusSuffix ceOverridesMap).1
          (ParseMinusSuffix ceOverridesMap).2]
  else
    submit client name b

/-- Lines 83-104: the `sink` field, then the rest. -/
def sinkStage (h : Helpers) (cmd : Command) (updateFlags : PingUpdateFlags)
    (sinkFlags : SinkFlags) (client : PingSourceClient) (dynamicClient : DynamicClient)
    (name ns : String) (b : PingSourceBuilder) : Outcome :=
  if cmd.Changed "sink" then
    match sinkFlags.ResolveSink dynamicClient ns with
    | .error err => ⟨[Event.resolveSink ns (.error err)], some err⟩
    | .ok destination =>
      (ceOverrideStage h cmd updateFlags client name (b.Sink destination)).after
        [Event.resolveSink ns (.ok destination), Event.setSink destination]
  else
    ceOverrideStage h cmd updateFlags client name b

/-- Lines 74-104: payload validation, the `data` field, then the rest. -/
def dataStage (h : Helpers) (cmd : Command) (updateFlags : PingUpdateFlags)
    (sinkFlags : SinkFlags) (client : PingSourceClient) (dynamicClient : DynamicClient)
    (name ns : String) (b : PingSourceBuilder) : Outcome :=
  match h.getDataFields updateFlags with
  | .error err =>
    ⟨[Event.getDataFields (.error err)], some (dataFieldsError h name ns err)⟩
  | .ok (data, dataBase64) =>
    if cmd.Changed "data" then
      (sinkStage h cmd updateFlags sinkFlags client dynamicClient name ns
          ((b.Data data).DataBase64 dataBase64)).after
        [Event.getDataFields (.ok (data, dataBase64)), Event.setData data,
          Event.setDataBase64 dataBase64]
    else
      (sinkStage h cmd updateFlags sinkFlags client dynamicClient name ns b).after
        [Event.getDataFields (.ok (data, dataBase64))]

/-- Lines 69-104: the builder and the `schedule` field, then the rest. -/
def scheduleStage (h : Helpers) (cmd : Command) (updateFlags : PingUpdateFlags)
    (sinkFlags : SinkFlags) (client : PingSourceClient) (dynamicClient : DynamicClient)
    (name ns : String) (source : PingSource) : Outcome :=
  if cmd.Changed "schedule" then
    (dataStage h cmd updateFlags sinkFlags client dynamicClient name ns
        ((NewPingSourceBuilderFromExisting source).Schedule updateFlags.schedule)).after
      [Event.setSchedule updateFlags.schedule]
  else
    dataStage h cmd updateFlags sinkFlags client dynamicClient name ns
      (NewPingSourceBuilderFromExisting source)

/-- The closure `RunE` of `NewPingUpdateCommand` (lines 41-105): the argument
check, the client, namespace and dynamic client, the fetch, the deletion guard,
then the field stages and the submission. -/
def RunE (h : Helpers) (p : KnParams) (cmd : Command) (updateFlags : PingUpdateFlags)
    (sinkFlags : SinkFlags) (args : List String) : Outcome :=
  match args with
  | [name] =>
    match p.newPingSourceClient with
    | .error err => ⟨[], some err⟩
    | .ok pingSourceClient =>
      match p.GetNamespace with
      | .error err => ⟨[], some err⟩
      | .ok ns =>
        match p.NewDynamicClient ns with
        | .error err => ⟨[], some err⟩
        | .ok dynamicClient =>
          match pingSourceClient.GetPingSource name with
          | .error err => ⟨[Event.getPingSource name (.error err)], some err⟩
          | .ok source =>
            if source.markedForDeletion then
              ⟨[Event.getPingSource name (.ok source)], some (deletionError name)⟩
            else
              (scheduleStage h cmd updateFlags sinkFlags pingSourceClient dynamicClient
                  name ns source).after
                [Event.getPingSource name (.ok source)]
  | _ => ⟨[], some (errorsNew "name of Ping source required")⟩

/-! ## Reading an outcome -/

/-- Did the call return a value rather than an error? -/
def succeeded {ε α : Type} : Except ε α → Bool
  | .ok _ => true
  | .error _ => false

/-- The error a collaborator (store or sink resolver) returned from the call,
if that call failed. -/
def Event.collaboratorError : Event → Option GoError
  | .getPingSource _ (.error e) => some e
  | .resolveSink _ (.error e) => some e
  | .updatePingSource _ (some e) => some e
  | _ => none

/-- Every failed collaborator call of the outcome is the error the closure
returned, and nothing was written to the output. -/
def Outcome.FailuresPropagate (r : Outcome) : Prop :=
  ∀ ev ∈ r.trace, ∀ e, ev.collaboratorError = some e →
    r.err = some e ∧ r.trace.countP Event.isOutput = 0

/-- Every resource the outcome submitted to `UpdatePingSource` is `x`. -/
def Outcome.Submits (r : Outcome) (x : PingSource) : Prop :=
  ∀ built e, Event.updatePingSource built e ∈ r.trace → built = x

/-- A failed outcome either never called `UpdatePingSource`, or returned the
error of that call. -/
def Outcome.FailsWithoutWrite (r : Outcome) : Prop :=
  r.err ≠ none →
    r.trace.countP Event.isUpdate = 0 ∨
      ∃ built e, Event.updatePingSource built (some e) ∈ r.trace ∧ r.err = some e

/-- The builder after the `schedule` stage. -/
def scheduleApplied (cmd : Command) (updateFlags : PingUpdateFlags) (b : PingSourceBuilder) :
    PingSourceBuilder :=
  if cmd.Changed "schedule" then b.Schedule updateFlags.schedule else b

/-- The builder after the `data` stage, when validation lets the closure go
on. -/
def dataApplied (h : Helpers) (cmd : Command) (updateFlags : PingUpdateFlags)
    (b : PingSourceBuilder) : PingSourceBuilder :=
  match h.getDataFields updateFlags with
  | .ok (data, dataBase64) =>
    if cmd.Changed "data" then (b.Data data).DataBase64 dataBase64 else b
  | .error _ => b

/-- The builder after the `sink` stage, when resolution lets the closure go
on. -/
def sinkApplied (cmd : Command) (sinkFlags : SinkFlags) (dynamicClient : DynamicClient)
    (ns : String) (b : PingSourceBuilder) : PingSourceBuilder :=
  if cmd.Changed "sink" then
    match sinkFlags.ResolveSink dynamicClient ns with
    | .ok destination => b.Sink destination
    | .error _ => b
  else b

/-- The builder after the `ce-override` stage, when parsing lets the closure go
on. -/
def ceApplied (h : Helpers) (cmd : Command) (updateFlags : PingUpdateFlags)
    (b : PingSourceBuilder) : PingSourceBuilder :=
  if cmd.Changed "ce-override" then
    match h.MapFromArrayAllowingSingles updateFlags.ceOverrides "=" with
    | .ok m => b.CloudEventOverrides (ParseMinusSuffix m).1 (ParseMinusSuffix m).2
    | .error _ => b
  else b

/-- The `ce-override` stage lets the closure reach the submission. -/
def cePasses (h : Helpers) (cmd : Command) (updateFlags : PingUpdateFlags) : Bool :=
  !cmd.Changed "ce-override" ||
    succeeded (h.MapFromArrayAllowingSingles updateFlags.ceOverrides "=")

/-- The `sink` stage lets the closure go on. -/
def sinkPasses (cmd : Command) (sinkFlags : SinkFlags) (dynamicClient : DynamicClient)
    (ns : String) : Bool :=
  !cmd.Changed "sink" || succeeded (sinkFlags.ResolveSink dynamicClient ns)

/-! ## Concrete collaborators used to exercise the closure -/

/-- The `%q` verb on a string that needs no escaping: the string between double
quotes. -/
def simpleQuote (s : String) : String := "\"" ++ s ++ "\""

/-- A stored PingSource that is not being deleted. -/
def demoSource : PingSource :=
  { schedule := "*/2 * * * *", data := "hello", dataBase64 := "",
    sink := ⟨"ksvc:old"⟩, ceOverrides := [("a", "1"), ("b", "2")],
    deletionTimestamp := none, other := [("name", "my-ping")] }

/-- The same PingSource once it has been marked for deletion. -/
def deletedSource : PingSource :=
  { demoSource with deletionTimestamp := some "2024-01-01T00:00:00Z" }

/-- A store client in namespace `default` that answers every fetch with
`fetched` and every update with `updateErr`. -/
def demoClient (fetched : Except GoError PingSource) (updateErr : Option GoError) :
    PingSourceClient :=
  { Namespace := "default", GetPingSource := fun _ => fetched,
    UpdatePingSource := fun _ => updateErr }

/-- Command parameters whose client, namespace and dynamic client are all
available. -/
def demoParams (client : PingSourceClient) : KnParams :=
  { newPingSourceClient := .ok client, GetNamespace := .ok "default",
    NewDynamicClient := fun _ => .ok ⟨"dynamic"⟩ }

/-- Helpers that answer payload validation with `dataFields` and override
parsing with `parsed`. -/
def demoHelpers (dataFields : Except GoError (String × String))
    (parsed : Except GoError StrMap) : Helpers :=
  { getDataFields := fun _ => dataFields, MapFromArrayAllowingSingles := fun _ _ => parsed,
    quote := simpleQuote }

/-- A command on which exactly the listed flags were explicitly set. -/
def demoCmd (changed : List String) : Command := ⟨fun flag => changed.contains flag⟩

/-- Flag values of an invocation. -/
def demoFlags : PingUpdateFlags :=
  { schedule := "* * * * *", ceOverrides := ["a=-"], payload := ⟨"hi", ""⟩ }

/-- Sink flags whose resolution answers `resolved`. -/
def demoSink (resolved : Except GoError Destination) : SinkFlags := ⟨fun _ _ => resolved⟩

/-- An error of the store. -/
def storeError : GoError := ⟨"*errors.StatusError", "pingsources \"my-ping\" not found"⟩

/-- An error of the sink resolver. -/
def sinkError : GoError := ⟨"*errors.errorString", "services \"gone\" not found"⟩

/-- An error of payload validation. -/
def payloadError : GoError := ⟨"*errors.errorString", "invalid payload"⟩

/-! ## The stages, one property at a time -/

section Stages

variable (h : Helpers) (cmd : Command) (updateFlags : PingUpdateFlags) (sinkFlags : SinkFlags)
  (client : PingSourceClient) (dynamicClient : DynamicClient) (name ns : String)

theorem succeeded_iff {ε α : Type} (r : Except ε α) : succeeded r = true ↔ ∃ v, r = .ok v := by
  cases r <;> simp [succeeded]

/-! ### No stage after the fetch calls `GetPingSource` -/

theorem submit_noGet (b : PingSourceBuilder) :
    (submit client name b).trace.countP Event.isGet = 0 := by
  unfold submit; split <;> simp [Event.isGet]

theorem ceOverrideStage_noGet (b : PingSourceBuilder) :
    (ceOverrideStage h cmd updateFlags client name b).trace.countP Event.isGet = 0 := by
  unfold ceOverrideStage
  repeat' split
  all_goals simp [Outcome.after, List.countP_cons, Event.isGet, submit_noGet]

theorem sinkStage_noGet (b : PingSourceBuilder) :
    (sinkStage h cmd updateFlags sinkFlags client dynamicClient name ns b).trace.countP
      Event.isGet = 0 := by
  unfold sinkStage
  repeat' split
  all_goals simp [Outcome.after, List.countP_cons, Event.isGet, ceOverrideStage_noGet]

theorem dataStage_noGet (b : PingSourceBuilder) :
    (dataStage h cmd updateFlags sinkFlags client dynamicClient name ns b).trace.countP
      Event.isGet = 0 := by
  unfold dataStage
  repeat' split
  all_goals simp [Outcome.after, List.countP_cons, Event.isGet, sinkStage_noGet]

theorem scheduleStage_noGet (source : PingSource) :
    (scheduleStage h cmd updateFlags sinkFlags client dynamicClient name ns source).trace.countP
      Event.isGet = 0 := by
  unfold scheduleStage
  repeat' split
  all_goals simp [Outcome.after, List.countP_cons, Event.isGet, dataStage_noGet]

/-! ### How many times `UpdatePingSource` is called -/

theorem submit_updates (b : PingSourceBuilder) :
    (submit client name b).trace.countP Event.isUpdate = 1 := by
  unfold submit; split <;> simp [Event.isUpdate]

theorem ceOverrideStage_updates (b : PingSourceBuilder) :
    (ceOverrideStage h cmd updateFlags client name b).trace.countP Event.isUpdate =
      if cePasses h cmd updateFlags then 1 else 0 := by
  unfold ceOverrideStage cePasses
  repeat' split
  all_goals simp_all [Outcome.after, List.countP_cons, Event.isUpdate, submit_updates, succeeded]

theorem sinkStage_updates (b : PingSourceBuilder) :
    (sinkStage h cmd updateFlags sinkFlags client dynamicClient name ns b).trace.countP
        Event.isUpdate =
      if sinkPasses cmd sinkFlags dynamicClient ns && cePasses h cmd updateFlags then 1 else 0 := by
  unfold sinkStage sinkPasses
  repeat' split
  all_goals
    simp_all [Outcome.after, List.countP_cons, Event.isUpdate, ceOverrideStage_updates, succeeded]

theorem dataStage_updates (b : PingSourceBuilder) :
    (dataStage h cmd updateFlags sinkFlags client dynamicClient name ns b).trace.countP
        Event.isUpdate =
      if succeeded (h.getDataFields updateFlags) &&
          (sinkPasses cmd sinkFlags dynamicClient ns && cePasses h cmd updateFlags) then 1
      else 0 := by
  unfold dataStage
  repeat' split
  all_goals
    simp_all [Outcome.after, List.countP_cons, Event.isUpdate, sinkStage_updates, succeeded]

theorem scheduleStage_updates (source : PingSource) :
    (scheduleStage h cmd updateFlags sinkFlags client dynamicClient name ns source).trace.countP
        Event.isUpdate =
      if succeeded (h.getDataFields updateFlags) &&
          (sinkPasses cmd sinkFlags dynamicClient ns && cePasses h cmd updateFlags) then 1
      else 0 := by
  unfold scheduleStage
  repeat' split
  all_goals simp_all [Outcome.after, List.countP_cons, Event.isUpdate, dataStage_updates]

/-! ### A failed collaborator call decides the returned error -/

theorem failuresPropagate_after (calls : List Event) (rest : Outcome)
    (hc : ∀ ev ∈ calls, ev.collaboratorError = none ∧ ev.isOutput = false)
    (hr : rest.FailuresPropagate) : (rest.after calls).FailuresPropagate := by
  intro ev hev e hfail
  simp only [Outcome.after, List.mem_append] at hev
  rcases hev with hev | hev
  · rw [(hc ev hev).1] at hfail
    cases hfail
  · obtain ⟨h1, h2⟩ := hr ev hev e hfail
    refine ⟨h1, ?_⟩
    simp only [Outcome.after, List.countP_append, h2, add_zero, List.countP_eq_zero]
    intro a ha
    simp [(hc a ha).2]

theorem submit_failure (b : PingSourceBuilder) : (submit client name b).FailuresPropagate := by
  unfold submit
  split <;> intro ev hev e hfail
  · simp only [List.mem_cons, List.mem_singleton, List.not_mem_nil, or_false] at hev
    rcases hev with rfl | rfl <;> simp [Event.collaboratorError] at hfail
  · simp only [List.mem_singleton] at hev
    subst hev
    simp_all [Event.collaboratorError, Event.isOutput]

theorem ceOverrideStage_failure (b : PingSourceBuilder) :
    (ceOverrideStage h cmd updateFlags client name b).FailuresPropagate := by
  unfold ceOverrideStage
  repeat' split
  · intro ev hev; simp at hev
  · exact failuresPropagate_after _ _ (by simp [Event.collaboratorError, Event.isOutput])
      (submit_failure client name _)
  · exact submit_failure client name b

theorem sinkStage_failure (b : PingSourceBuilder) :
    (sinkStage h cmd updateFlags sinkFlags client dynamicClient name ns b).FailuresPropagate := by
  unfold sinkStage
  repeat' split
  · intro ev hev e hfail
    simp only [List.mem_singleton] at hev
    subst hev
    simp_all [Event.collaboratorError, Event.isOutput]
  · exact failuresPropagate_after _ _ (by simp [Event.collaboratorError, Event.isOutput])
      (ceOverrideStage_failure h cmd updateFlags client name _)
  · exact ceOverrideStage_failure h cmd updateFlags client name b

theorem dataStage_failure (b : PingSourceBuilder) :
    (dataStage h cmd updateFlags sinkFlags client dynamicClient name ns b).FailuresPropagate := by
  unfold dataStage
  repeat' split
  · intro ev hev e hfail
    simp only [List.mem_singleton] at hev
    subst hev
    simp [Event.collaboratorError] at hfail
  · exact failuresPropagate_after _ _ (by simp [Event.collaboratorError, Event.isOutput])
      (sinkStage_failure h cmd updateFlags sinkFlags client dynamicClient name ns _)
  · exact failuresPropagate_after _ _ (by simp [Event.collaboratorError, Event.isOutput])
      (sinkStage_failure h cmd updateFlags sinkFlags client dynamicClient name ns _)

theorem scheduleStage_failure (source : PingSource) :
    (scheduleStage h cmd updateFlags sinkFlags client dynamicClient name ns
      source).FailuresPropagate := by
  unfold scheduleStage
  split
  · exact failuresPropagate_after _ _ (by simp [Event.collaboratorError, Event.isOutput])
      (dataStage_failure h cmd updateFlags sinkFlags client dynamicClient name ns _)
  · exact dataStage_failure h cmd updateFlags sinkFlags client dynamicClient name ns _

/-! ### A failure before the submission writes nothing -/

theorem failsWithoutWrite_after (calls : List Event) (rest : Outcome)
    (hc : ∀ ev ∈ calls, ev.isUpdate = false)
    (hr : rest.FailsWithoutWrite) : (rest.after calls).FailsWithoutWrite := by
  intro herr
  have hcalls : calls.countP Event.isUpdate = 0 := by
    rw [List.countP_eq_zero]
    intro a ha
    simp [hc a ha]
  rcases hr herr with h0 | ⟨built, e, hmem, he⟩
  · left
    simp [Outcome.after, List.countP_append, h0, hcalls]
  · right
    exact ⟨built, e, by simp [Outcome.after, hmem], he⟩

theorem submit_failsWithoutWrite (b : PingSourceBuilder) :
    (submit client name b).FailsWithoutWrite := by
  unfold submit
  split <;> intro herr
  · simp at herr
  · rename_i err _
    right
    exact ⟨b.Build, err, List.mem_singleton.mpr rfl, rfl⟩

theorem ceOverrideStage_failsWithoutWrite (b : PingSourceBuilder) :
    (ceOverrideStage h cmd updateFlags client name b).FailsWithoutWrite := by
  unfold ceOverrideStage
  repeat' split
  · intro _; left; simp
  · exact failsWithoutWrite_after _ _ (by simp [Event.isUpdate])
      (submit_failsWithoutWrite client name _)
  · exact submit_failsWithoutWrite client name b

theorem sinkStage_failsWithoutWrite (b : PingSourceBuilder) :
    (sinkStage h cmd updateFlags sinkFlags client dynamicClient name ns b).FailsWithoutWrite := by
  unfold sinkStage
  repeat' split
  · intro _; left; simp [Event.isUpdate]
  · exact failsWithoutWrite_after _ _ (by simp [Event.isUpdate])
      (ceOverrideStage_failsWithoutWrite h cmd updateFlags client name _)
  · exact ceOverrideStage_failsWithoutWrite h cmd updateFlags client name b

theorem dataStage_failsWithoutWrite (b : PingSourceBuilder) :
    (dataStage h cmd updateFlags sinkFlags client dynamicClient name ns b).FailsWithoutWrite := by
  unfold dataStage
  repeat' split
  · intro _; left; simp [Event.isUpdate]
  · exact failsWithoutWrite_after _ _ (by simp [Event.isUpdate])
      (sinkStage_failsWithoutWrite h cmd updateFlags sinkFlags client dynamicClient name ns _)
  · exact failsWithoutWrite_after _ _ (by simp [Event.isUpdate])
      (sinkStage_failsWithoutWrite h cmd updateFlags sinkFlags client dynamicClient name ns _)

theorem scheduleStage_failsWithoutWrite (source : PingSource) :
    (scheduleStage h cmd updateFlags sinkFlags client dynamicClient name ns
      source).FailsWithoutWrite := by
  unfold scheduleStage
  split
  · exact failsWithoutWrite_after _ _ (by simp [Event.isUpdate])
      (dataStage_failsWithoutWrite h cmd updateFlags sinkFlags client dynamicClient name ns _)
  · exact dataStage_failsWithoutWrite h cmd updateFlags sinkFlags client dynamicClient name ns _

/-! ### The resource that is submitted -/

theorem submits_after (calls : List Event) (rest : Outcome) (x : PingSource)
    (hc : ∀ ev ∈ calls, ev.isUpdate = false) (hr : rest.Submits x) :
    (rest.after calls).Submits x := by
  intro built e hmem
  simp only [Outcome.after, List.mem_append] at hmem
  rcases hmem with hmem | hmem
  · have := hc _ hmem
    simp [Event.isUpdate] at this
  · exact hr built e hmem

theorem submit_submits (b : PingSourceBuilder) : (submit client name b).Submits b.Build := by
  unfold submit
  split <;> intro built e hmem <;> simp at hmem <;> exact hmem.1

theorem ceOverrideStage_submits (b : PingSourceBuilder) :
    (ceOverrideStage h cmd updateFlags client name b).Submits
      (ceApplied h cmd updateFlags b).Build := by
  unfold ceOverrideStage ceApplied
  by_cases hc : cmd.Changed "ce-override" = true
  · cases hp : h.MapFromArrayAllowingSingles updateFlags.ceOverrides "=" with
    | error err =>
      simp only [hc, if_true]
      intro built e hmem
      simp at hmem
    | ok m =>
      simp only [hc, if_true]
      exact submits_after _ _ _ (by simp [Event.isUpdate]) (submit_submits client name _)
  · simp only [hc]
    exact submit_submits client name b

theorem sinkStage_submits (b : PingSourceBuilder) :
    (sinkStage h cmd updateFlags sinkFlags client dynamicClient name ns b).Submits
      (ceApplied h cmd updateFlags (sinkApplied cmd sinkFlags dynamicClient ns b)).Build := by
  unfold sinkStage sinkApplied
  by_cases hc : cmd.Changed "sink" = true
  · cases hp : sinkFlags.ResolveSink dynamicClient ns with
    | error err =>
      simp only [hc, if_true]
      intro built e hmem
      simp at hmem
    | ok destination =>
      simp only [hc, if_true]
      exact submits_after _ _ _ (by simp [Event.isUpdate])
        (ceOverrideStage_submits h cmd updateFlags client name _)
  · simp only [hc]
    exact ceOverrideStage_submits h cmd updateFlags client name b

theorem dataStage_submits (b : PingSourceBuilder) :
    (dataStage h cmd updateFlags sinkFlags client dynamicClient name ns b).Submits
      (ceApplied h cmd updateFlags
        (sinkApplied cmd sinkFlags dynamicClient ns (dataApplied h cmd updateFlags b))).Build := by
  unfold dataStage dataApplied
  cases hp : h.getDataFields updateFlags with
  | error err =>
    intro built e hmem
    simp at hmem
  | ok fields =>
    obtain ⟨data, dataBase64⟩ := fields
    by_cases hc : cmd.Changed "data" = true
    · simp only [hc, if_true]
      exact submits_after _ _ _ (by simp [Event.isUpdate])
        (sinkStage_submits h cmd updateFlags sinkFlags client dynamicClient name ns _)
    · simp only [hc]
      exact submits_after _ _ _ (by simp [Event.isUpdate])
        (sinkStage_submits h cmd updateFlags sinkFlags client dynamicClient name ns _)

theorem scheduleStage_submits (source : PingSource) :
    (scheduleStage h cmd updateFlags sinkFlags client dynamicClient name ns source).Submits
      (ceApplied h cmd updateFlags
        (sinkApplied cmd sinkFlags dynamicClient ns
          (dataApplied h cmd updateFlags
            (scheduleApplied cmd updateFlags (NewPingSourceBuilderFromExisting source))))).Build := by
  unfold scheduleStage scheduleApplied
  split
  · exact submits_after _ _ _ (by simp [Event.isUpdate])
      (dataStage_submits h cmd updateFlags sinkFlags client dynamicClient name ns _)
  · exact dataStage_submits h cmd updateFlags sinkFlags client dynamicClient name ns _

/-! ### A success has called `UpdatePingSource` -/

theorem submit_ok (b : PingSourceBuilder) (hok : (submit client name b).err = none) :
    ∃ built, Event.updatePingSource built none ∈ (submit client name b).trace := by
  revert hok
  unfold submit
  split
  · intro _; exact ⟨b.Build, by simp⟩
  · intro hok; simp at hok

theorem ceOverrideStage_ok (b : PingSourceBuilder)
    (hok : (ceOverrideStage h cmd updateFlags client name b).err = none) :
    ∃ built, Event.updatePingSource built none ∈
      (ceOverrideStage h cmd updateFlags client name b).trace := by
  revert hok
  unfold ceOverrideStage
  repeat' split
  · intro hok; simp at hok
  · intro hok
    obtain ⟨built, hmem⟩ := submit_ok client name _ hok
    exact ⟨built, by simp [Outcome.after, hmem]⟩
  · exact submit_ok client name b

theorem sinkStage_ok (b : PingSourceBuilder)
    (hok : (sinkStage h cmd updateFlags sinkFlags client dynamicClient name ns b).err = none) :
    ∃ built, Event.updatePingSource built none ∈
      (sinkStage h cmd updateFlags sinkFlags client dynamicClient name ns b).trace := by
  revert hok
  unfold sinkStage
  repeat' split
  · intro hok; simp at hok
  · intro hok
    obtain ⟨built, hmem⟩ := ceOverrideStage_ok h cmd updateFlags client name _ hok
    exact ⟨built, by simp [Outcome.after, hmem]⟩
  · exact ceOverrideStage_ok h cmd updateFlags client name b

theorem dataStage_ok (b : PingSourceBuilder)
    (hok : (dataStage h cmd updateFlags sinkFlags client dynamicClient name ns b).err = none) :
    ∃ built, Event.updatePingSource built none ∈
      (dataStage h cmd updateFlags sinkFlags client dynamicClient name ns b).trace := by
  revert hok
  unfold dataStage
  repeat' split
  · intro hok; simp at hok
  · intro hok
    obtain ⟨built, hmem⟩ :=
      sinkStage_ok h cmd updateFlags sinkFlags client dynamicClient name ns _ hok
    exact ⟨built, by simp [Outcome.after, hmem]⟩
  · intro hok
    obtain ⟨built, hmem⟩ :=
      sinkStage_ok h cmd updateFlags sinkFlags client dynamicClient name ns _ hok
    exact ⟨built, by simp [Outcome.after, hmem]⟩

theorem scheduleStage_ok (source : PingSource)
    (hok : (scheduleStage h cmd updateFlags sinkFlags client dynamicClient name ns source).err =
      none) :
    ∃ built, Event.updatePingSource built none ∈
      (scheduleStage h cmd updateFlags sinkFlags client dynamicClient name ns source).trace := by
  revert hok
  unfold scheduleStage
  split
  · intro hok
    obtain ⟨built, hmem⟩ :=
      dataStage_ok h cmd updateFlags sinkFlags client dynamicClient name ns _ hok
    exact ⟨built, by simp [Outcome.after, hmem]⟩
  · exact dataStage_ok h cmd updateFlags sinkFlags client dynamicClient name ns _

/-! ### Builder setters are called for explicitly set flags only -/

theorem submit_setters (b : PingSourceBuilder) :
    (submit client name b).trace.countP Event.isSetter = 0 := by
  unfold submit; split <;> simp [Event.isSetter]

theorem ceOverrideStage_setters (b : PingSourceBuilder)
    (hc : cmd.Changed "ce-override" = false) :
    (ceOverrideStage h cmd updateFlags client name b).trace.countP Event.isSetter = 0 := by
  unfold ceOverrideStage
  simp [hc, submit_setters]

theorem sinkStage_setters (b : PingSourceBuilder) (hk : cmd.Changed "sink" = false)
    (hc : cmd.Changed "ce-override" = false) :
    (sinkStage h cmd updateFlags sinkFlags client dynamicClient name ns b).trace.countP
      Event.isSetter = 0 := by
  unfold sinkStage
  simp [hk, ceOverrideStage_setters h cmd updateFlags client name b hc]

theorem dataStage_setters (b : PingSourceBuilder) (hd : cmd.Changed "data" = false)
    (hk : cmd.Changed "sink" = false) (hc : cmd.Changed "ce-override" = false) :
    (dataStage h cmd updateFlags sinkFlags client dynamicClient name ns b).trace.countP
      Event.isSetter = 0 := by
  unfold dataStage
  split
  · simp [Event.isSetter]
  · simp [hd, Outcome.after, List.countP_cons, Event.isSetter,
      sinkStage_setters h cmd updateFlags sinkFlags client dynamicClient name ns b hk hc]

theorem scheduleStage_setters (source : PingSource) (hs : cmd.Changed "schedule" = false)
    (hd : cmd.Changed "data" = false) (hk : cmd.Changed "sink" = false)
    (hc : cmd.Changed "ce-override" = false) :
    (scheduleStage h cmd updateFlags sinkFlags client dynamicClient name ns source).trace.countP
      Event.isSetter = 0 := by
  unfold scheduleStage
  simp [hs, dataStage_setters h cmd updateFlags sinkFlags client dynamicClient name ns _ hd hk hc]

/-! ### Builder setters for the payload -/

theorem submit_payloadSetters (b : PingSourceBuilder) :
    (submit client name b).trace.countP Event.isPayloadSetter = 0 := by
  unfold submit; split <;> simp [Event.isPayloadSetter]

theorem ceOverrideStage_payloadSetters (b : PingSourceBuilder) :
    (ceOverrideStage h cmd updateFlags client name b).trace.countP Event.isPayloadSetter = 0 := by
  unfold ceOverrideStage
  repeat' split
  all_goals simp [Outcome.after, List.countP_cons, Event.isPayloadSetter, submit_payloadSetters]

theorem sinkStage_payloadSetters (b : PingSourceBuilder) :
    (sinkStage h cmd updateFlags sinkFlags client dynamicClient name ns b).trace.countP
      Event.isPayloadSetter = 0 := by
  unfold sinkStage
  repeat' split
  all_goals
    simp [Outcome.after, List.countP_cons, Event.isPayloadSetter, ceOverrideStage_payloadSetters]

theorem dataStage_payloadSetters (b : PingSourceBuilder) (data dataBase64 : String)
    (hv : h.getDataFields updateFlags = .ok (data, dataBase64))
    (hd : cmd.Changed "data" = true) :
    (dataStage h cmd updateFlags sinkFlags client dynamicClient name ns b).trace =
      [Event.getDataFields (.ok (data, dataBase64)), Event.setData data,
          Event.setDataBase64 dataBase64] ++
        (sinkStage h cmd updateFlags sinkFlags client dynamicClient name ns
          ((b.Data data).DataBase64 dataBase64)).trace := by
  unfold dataStage
  simp [hv, hd, Outcome.after]

/-! ### A failed payload validation ends the closure -/

theorem dataStage_invalid (b : PingSourceBuilder) (e : GoError)
    (hfail : h.getDataFields updateFlags = .error e) :
    dataStage h cmd updateFlags sinkFlags client dynamicClient name ns b =
      ⟨[Event.getDataFields (.error e)], some (dataFieldsError h name ns e)⟩ := by
  unfold dataStage
  simp [hfail]

theorem scheduleStage_invalid (source : PingSource) (e : GoError)
    (hfail : h.getDataFields updateFlags = .error e) :
    scheduleStage h cmd updateFlags sinkFlags client dynamicClient name ns source =
      ⟨(if cmd.Changed "schedule" then [Event.setSchedule updateFlags.schedule] else []) ++
          [Event.getDataFields (.error e)],
        some (dataFieldsError h name ns e)⟩ := by
  unfold scheduleStage
  split <;> simp [dataStage_invalid _ _ _ _ _ _ _ _ _ _ hfail, Outcome.after]

theorem dataStage_validates (b : PingSourceBuilder) :
    Event.getDataFields (h.getDataFields updateFlags) ∈
      (dataStage h cmd updateFlags sinkFlags client dynamicClient name ns b).trace := by
  unfold dataStage
  repeat' split
  all_goals simp_all [Outcome.after]

theorem scheduleStage_validates (source : PingSource) :
    Event.getDataFields (h.getDataFields updateFlags) ∈
      (scheduleStage h cmd updateFlags sinkFlags client dynamicClient name ns source).trace := by
  unfold scheduleStage
  split
  · simp [Outcome.after, dataStage_validates]
  · exact dataStage_validates h cmd updateFlags sinkFlags client dynamicClient name ns _

theorem scheduleStage_trace (source : PingSource) :
    (scheduleStage h cmd updateFlags sinkFlags client dynamicClient name ns source).trace =
      (if cmd.Changed "schedule" then [Event.setSchedule updateFlags.schedule] else []) ++
        (dataStage h cmd updateFlags sinkFlags client dynamicClient name ns
          (scheduleApplied cmd updateFlags (NewPingSourceBuilderFromExisting source))).trace := by
  unfold scheduleStage scheduleApplied
  split <;> simp [Outcome.after]

theorem sinkPasses_iff :
    sinkPasses cmd sinkFlags dynamicClient ns = true ↔
      (cmd.Changed "sink" = true → ∃ destination,
        sinkFlags.ResolveSink dynamicClient ns = .ok destination) := by
  unfold sinkPasses
  rw [← succeeded_iff]
  cases cmd.Changed "sink" <;> simp

theorem cePasses_iff :
    cePasses h cmd updateFlags = true ↔
      (cmd.Changed "ce-override" = true → ∃ m,
        h.MapFromArrayAllowingSingles updateFlags.ceOverrides "=" = .ok m) := by
  unfold cePasses
  rw [← succeeded_iff]
  cases cmd.Changed "ce-override" <;> simp

end Stages

/-! ## The closure as a whole -/

section Closure

variable (h : Helpers) (p : KnParams) (cmd : Command) (updateFlags : PingUpdateFlags)
  (sinkFlags : SinkFlags)

theorem RunE_fetchError (client : PingSourceClient) (dynamicClient : DynamicClient)
    (name ns : String) (e : GoError)
    (hclient : p.newPingSourceClient = .ok client) (hns : p.GetNamespace = .ok ns)
    (hdyn : p.NewDynamicClient ns = .ok dynamicClient)
    (hget : client.GetPingSource name = .error e) :
    RunE h p cmd updateFlags sinkFlags [name] =
      ⟨[Event.getPingSource name (.error e)], some e⟩ := by
  simp [RunE, hclient, hns, hdyn, hget]

theorem RunE_deleted (client : PingSourceClient) (dynamicClient : DynamicClient)
    (name ns : String) (source : PingSource)
    (hclient : p.newPingSourceClient = .ok client) (hns : p.GetNamespace = .ok ns)
    (hdyn : p.NewDynamicClient ns = .ok dynamicClient)
    (hget : client.GetPingSource name = .ok source)
    (hdel : source.markedForDeletion = true) :
    RunE h p cmd updateFlags sinkFlags [name] =
      ⟨[Event.getPingSource name (.ok source)], some (deletionError name)⟩ := by
  simp [RunE, hclient, hns, hdyn, hget, hdel]

theorem RunE_live (client : PingSourceClient) (dynamicClient : DynamicClient)
    (name ns : String) (source : PingSource)
    (hclient : p.newPingSourceClient = .ok client) (hns : p.GetNamespace = .ok ns)
    (hdyn : p.NewDynamicClient ns = .ok dynamicClient)
    (hget : client.GetPingSource name = .ok source)
    (hlive : source.markedForDeletion = false) :
    RunE h p cmd updateFlags sinkFlags [name] =
      (scheduleStage h cmd updateFlags sinkFlags client dynamicClient name ns source).after
        [Event.getPingSource name (.ok source)] := by
  simp [RunE, hclient, hns, hdyn, hget, hlive]

/-- Either the closure stopped before the fetch, with an empty call log, or it
obtained its client, namespace and dynamic client for a single name. -/
theorem RunE_shape (args : List String) :
    (∃ e, RunE h p cmd updateFlags sinkFlags args = ⟨[], some e⟩) ∨
      ∃ name client ns dynamicClient, args = [name] ∧ p.newPingSourceClient = .ok client ∧
        p.GetNamespace = .ok ns ∧ p.NewDynamicClient ns = .ok dynamicClient := by
  unfold RunE
  split
  · rename_i name
    cases hclient : p.newPingSourceClient with
    | error e => left; exact ⟨e, by simp⟩
    | ok client =>
      cases hns : p.GetNamespace with
      | error e => left; exact ⟨e, by simp⟩
      | ok ns =>
        cases hdyn : p.NewDynamicClient ns with
        | error e => left; exact ⟨e, by simp [hdyn]⟩
        | ok dynamicClient => right; exact ⟨name, client, ns, dynamicClient, rfl, rfl, rfl, hdyn⟩
  · left; exact ⟨_, rfl⟩

/-- A `GetPingSource` call in the log is the fetch of the single argument, made
after client, namespace and dynamic client were obtained, and the log starts
with it. -/
theorem RunE_fetched (args : List String) (name : String) (result : Except GoError PingSource)
    (hmem : Event.getPingSource name result ∈ (RunE h p cmd updateFlags sinkFlags args).trace) :
    ∃ client ns dynamicClient, args = [name] ∧ p.newPingSourceClient = .ok client ∧
      p.GetNamespace = .ok ns ∧ p.NewDynamicClient ns = .ok dynamicClient ∧
      client.GetPingSource name = result := by
  rcases RunE_shape h p cmd updateFlags sinkFlags args with ⟨e, he⟩ |
    ⟨name', client, ns, dynamicClient, rfl, hclient, hns, hdyn⟩
  · rw [he] at hmem
    simp at hmem
  · cases hget : client.GetPingSource name' with
    | error e =>
      rw [RunE_fetchError h p cmd updateFlags sinkFlags client dynamicClient name' ns e
        hclient hns hdyn hget] at hmem
      simp only [List.mem_singleton, Event.getPingSource.injEq] at hmem
      obtain ⟨rfl, rfl⟩ := hmem
      exact ⟨client, ns, dynamicClient, rfl, hclient, hns, hdyn, hget⟩
    | ok source =>
      cases hdel : source.markedForDeletion with
      | true =>
        rw [RunE_deleted h p cmd updateFlags sinkFlags client dynamicClient name' ns source
          hclient hns hdyn hget hdel] at hmem
        simp only [List.mem_singleton, Event.getPingSource.injEq] at hmem
        obtain ⟨rfl, rfl⟩ := hmem
        exact ⟨client, ns, dynamicClient, rfl, hclient, hns, hdyn, hget⟩
      | false =>
        rw [RunE_live h p cmd updateFlags sinkFlags client dynamicClient name' ns source
          hclient hns hdyn hget hdel] at hmem
        simp only [Outcome.after, List.mem_append, List.mem_singleton,
          Event.getPingSource.injEq] at hmem
        rcases hmem with ⟨rfl, rfl⟩ | hmem
        · exact ⟨client, ns, dynamicClient, rfl, hclient, hns, hdyn, hget⟩
        · have hzero := scheduleStage_noGet h cmd updateFlags sinkFlags client dynamicClient
            name' ns source
          rw [List.countP_eq_zero] at hzero
          have := hzero _ hmem
          simp [Event.isGet] at this

/-- A call to `UpdatePingSource` in the log comes from a closure that fetched a
resource not marked for deletion, and the log is that fetch followed by the
stages. -/
theorem RunE_submitted (args : List String) (built : PingSource) (e : Option GoError)
    (hmem : Event.updatePingSource built e ∈ (RunE h p cmd updateFlags sinkFlags args).trace) :
    ∃ name client ns dynamicClient source, args = [name] ∧
      p.newPingSourceClient = .ok client ∧
      p.GetNamespace = .ok ns ∧ p.NewDynamicClient ns = .ok dynamicClient ∧
      client.GetPingSource name = .ok source ∧ source.markedForDeletion = false ∧
      RunE h p cmd updateFlags sinkFlags args =
        (scheduleStage h cmd updateFlags sinkFlags client dynamicClient name ns source).after
          [Event.getPingSource name (.ok source)] := by
  rcases RunE_shape h p cmd updateFlags sinkFlags args with ⟨e, he⟩ |
    ⟨name, client, ns, dynamicClient, rfl, hclient, hns, hdyn⟩
  · rw [he] at hmem
    simp at hmem
  · cases hget : client.GetPingSource name with
    | error e =>
      rw [RunE_fetchError h p cmd updateFlags sinkFlags client dynamicClient name ns e
        hclient hns hdyn hget] at hmem
      simp at hmem
    | ok source =>
      cases hdel : source.markedForDeletion with
      | true =>
        rw [RunE_deleted h p cmd updateFlags sinkFlags client dynamicClient name ns source
          hclient hns hdyn hget hdel] at hmem
        simp at hmem
      | false =>
        exact ⟨name, client, ns, dynamicClient, source, rfl, hclient, hns, hdyn, hget, hdel,
          RunE_live h p cmd updateFlags sinkFlags client dynamicClient name ns source
            hclient hns hdyn hget hdel⟩

theorem RunE_failure (args : List String) :
    (RunE h p cmd updateFlags sinkFlags args).FailuresPropagate := by
  rcases RunE_shape h p cmd updateFlags sinkFlags args with ⟨e, he⟩ |
    ⟨name, client, ns, dynamicClient, rfl, hclient, hns, hdyn⟩
  · rw [he]
    intro ev hev
    simp at hev
  · cases hget : client.GetPingSource name with
    | error e =>
      rw [RunE_fetchError h p cmd updateFlags sinkFlags client dynamicClient name ns e
        hclient hns hdyn hget]
      intro ev hev e' hfail
      simp only [List.mem_singleton] at hev
      subst hev
      simp_all [Event.collaboratorError, Event.isOutput]
    | ok source =>
      cases hdel : source.markedForDeletion with
      | true =>
        rw [RunE_deleted h p cmd updateFlags sinkFlags client dynamicClient name ns source
          hclient hns hdyn hget hdel]
        intro ev hev e' hfail
        simp only [List.mem_singleton] at hev
        subst hev
        simp [Event.collaboratorError] at hfail
      | false =>
        rw [RunE_live h p cmd updateFlags sinkFlags client dynamicClient name ns source
          hclient hns hdyn hget hdel]
        exact failuresPropagate_after _ _ (by simp [Event.collaboratorError, Event.isOutput])
          (scheduleStage_failure h cmd updateFlags sinkFlags client dynamicClient name ns source)

/-- The resource handed to `UpdatePingSource` is the fetched resource with the
stages of the explicitly set flags applied, in the order schedule, data, sink,
ce-override. -/
theorem RunE_built (args : List String) (name : String) (source built : PingSource)
    (e : Option GoError)
    (hget : Event.getPingSource name (.ok source) ∈
      (RunE h p cmd updateFlags sinkFlags args).trace)
    (hupd : Event.updatePingSource built e ∈ (RunE h p cmd updateFlags sinkFlags args).trace) :
    ∃ ns dynamicClient, p.GetNamespace = .ok ns ∧ p.NewDynamicClient ns = .ok dynamicClient ∧
      built =
        (ceApplied h cmd updateFlags
          (sinkApplied cmd sinkFlags dynamicClient ns
            (dataApplied h cmd updateFlags
              (scheduleApplied cmd updateFlags
                (NewPingSourceBuilderFromExisting source))))).Build := by
  obtain ⟨name', client, ns, dynamicClient, source', rfl, hclient, hns, hdyn, hget', hlive, hrun⟩ :=
    RunE_submitted h p cmd updateFlags sinkFlags args built e hupd
  obtain ⟨client₂, ns₂, dynamicClient₂, hargs, hclient₂, -, -, hget₂⟩ :=
    RunE_fetched h p cmd updateFlags sinkFlags _ name (.ok source) hget
  obtain rfl : name' = name := by simpa using hargs
  rw [hclient] at hclient₂
  obtain rfl : client = client₂ := by simpa using hclient₂
  rw [hget'] at hget₂
  obtain rfl : source' = source := by simpa using hget₂
  refine ⟨ns, dynamicClient, hns, hdyn, ?_⟩
  rw [hrun] at hupd
  exact submits_after _ _ _ (by simp [Event.isUpdate])
    (scheduleStage_submits h cmd updateFlags sinkFlags client dynamicClient name' ns source')
    built e hupd

theorem scheduleApplied_ceOverrides (b : PingSourceBuilder) :
    (scheduleApplied cmd updateFlags b).pingSource.ceOverrides = b.pingSource.ceOverrides := by
  unfold scheduleApplied
  split <;> rfl

theorem dataApplied_ceOverrides (b : PingSourceBuilder) :
    (dataApplied h cmd updateFlags b).pingSource.ceOverrides = b.pingSource.ceOverrides := by
  unfold dataApplied
  repeat' split
  all_goals rfl

theorem sinkApplied_ceOverrides (dynamicClient : DynamicClient) (ns : String)
    (b : PingSourceBuilder) :
    (sinkApplied cmd sinkFlags dynamicClient ns b).pingSource.ceOverrides =
      b.pingSource.ceOverrides := by
  unfold sinkApplied
  repeat' split
  all_goals rfl

theorem sinkApplied_payload (dynamicClient : DynamicClient) (ns : String)
    (b : PingSourceBuilder) :
    (sinkApplied cmd sinkFlags dynamicClient ns b).pingSource.data = b.pingSource.data ∧
      (sinkApplied cmd sinkFlags dynamicClient ns b).pingSource.dataBase64 =
        b.pingSource.dataBase64 := by
  unfold sinkApplied
  repeat' split
  all_goals exact ⟨rfl, rfl⟩

theorem ceApplied_payload (b : PingSourceBuilder) :
    (ceApplied h cmd updateFlags b).pingSource.data = b.pingSource.data ∧
      (ceApplied h cmd updateFlags b).pingSource.dataBase64 = b.pingSource.dataBase64 := by
  unfold ceApplied
  repeat' split
  all_goals exact ⟨rfl, rfl⟩

/-- With the ce-override flag set and the request parsed, the submitted override
map is the merge of the fetched map with the request. -/
theorem RunE_merged (args : List String) (name : String) (source built : PingSource)
    (e : Option GoError) (requested : StrMap)
    (hget : Event.getPingSource name (.ok source) ∈
      (RunE h p cmd updateFlags sinkFlags args).trace)
    (hupd : Event.updatePingSource built e ∈ (RunE h p cmd updateFlags sinkFlags args).trace)
    (hc : cmd.Changed "ce-override" = true)
    (hparse : h.MapFromArrayAllowingSingles updateFlags.ceOverrides "=" = .ok requested) :
    built.ceOverrides = merge source.ceOverrides requested := by
  obtain ⟨ns, dynamicClient, -, -, rfl⟩ :=
    RunE_built h p cmd updateFlags sinkFlags args name source built e hget hupd
  have hprev : (sinkApplied cmd sinkFlags dynamicClient ns
      (dataApplied h cmd updateFlags
        (scheduleApplied cmd updateFlags
          (NewPingSourceBuilderFromExisting source)))).pingSource.ceOverrides =
      source.ceOverrides := by
    rw [sinkApplied_ceOverrides, dataApplied_ceOverrides, scheduleApplied_ceOverrides]
    rfl
  simp only [ceApplied, hc, hparse, if_true, PingSourceBuilder.Build,
    PingSourceBuilder.CloudEventOverrides, ParseMinusSuffix, merge, hprev]

end Closure

/-! ## The override map -/

theorem mapGet_mapSet (j k v : String) (m : StrMap) :
    mapGet j (mapSet k v m) = if k = j then some v else mapGet j m := by
  induction m with
  | nil => simp [mapSet, mapGet]
  | cons kv m ih =>
    obtain ⟨k', v'⟩ := kv
    by_cases hk : k' = k
    · subst hk
      by_cases hj : k' = j <;> simp [mapSet, mapGet, hj]
    · by_cases hj : k' = j
      · subst hj
        have hk' : ¬ k = k' := fun hh => hk hh.symm
        simp [mapSet, mapGet, hk, hk']
      · simp [mapSet, mapGet, hk, hj, ih]

theorem mapGet_mapDelete (j k : String) (m : StrMap) :
    mapGet j (mapDelete k m) = if k = j then none else mapGet j m := by
  induction m with
  | nil => simp [mapDelete, mapGet]
  | cons kv m ih =>
    obtain ⟨k', v'⟩ := kv
    by_cases hk : k' = k
    · subst hk
      by_cases hj : k' = j
      · subst hj
        simpa [mapDelete, mapGet] using ih
      · simp [mapDelete, mapGet, hj, ih]
    · by_cases hj : k' = j
      · subst hj
        have hk' : ¬ k = k' := fun hh => hk hh.symm
        simp [mapDelete, mapGet, hk, hk']
      · simp [mapDelete, mapGet, hk, hj, ih]

theorem mapGet_deleteKeys (j : String) (keys : List String) (m : StrMap) :
    mapGet j (deleteKeys keys m) = if j ∈ keys then none else mapGet j m := by
  induction keys generalizing m with
  | nil => simp [deleteKeys]
  | cons k keys ih =>
    have hstep : deleteKeys (k :: keys) m = deleteKeys keys (mapDelete k m) := rfl
    rw [hstep, ih, mapGet_mapDelete]
    by_cases hjk : k = j
    · subst hjk; simp
    · have hjk' : ¬ j = k := fun hh => hjk hh.symm
      simp [hjk, hjk']

theorem mapGet_applyEntries_absent (j : String) (entries m : StrMap)
    (habs : ∀ v, (j, v) ∉ entries) : mapGet j (applyEntries entries m) = mapGet j m := by
  induction entries generalizing m with
  | nil => simp [applyEntries]
  | cons kv entries ih =>
    obtain ⟨k, v⟩ := kv
    have hstep : applyEntries ((k, v) :: entries) m = applyEntries entries (mapSet k v m) := rfl
    have hk : ¬ k = j := by
      intro hh
      subst hh
      exact habs v (by simp)
    rw [hstep, ih _ (fun w hw => habs w (List.mem_cons_of_mem _ hw)), mapGet_mapSet]
    simp [hk]

theorem mapGet_applyEntries_present (j v : String) (entries m : StrMap)
    (huniq : UniqueKeys entries) (hmem : (j, v) ∈ entries) :
    mapGet j (applyEntries entries m) = some v := by
  induction entries generalizing m with
  | nil => simp at hmem
  | cons kv entries ih =>
    obtain ⟨k, w⟩ := kv
    have hstep : applyEntries ((k, w) :: entries) m = applyEntries entries (mapSet k w m) := rfl
    unfold UniqueKeys at huniq
    simp only [List.map_cons, List.nodup_cons, List.mem_map, Prod.exists, exists_and_right,
      exists_eq_right, not_exists] at huniq
    rw [hstep]
    rcases List.mem_cons.1 hmem with heq | htail
    · obtain ⟨rfl, rfl⟩ := Prod.mk.inj heq
      rw [mapGet_applyEntries_absent _ _ _ (fun x hx => huniq.1 x hx), mapGet_mapSet]
      simp
    · exact ih _ huniq.2 htail

theorem uniqueKeys_toSet (m : StrMap) (huniq : UniqueKeys m) : UniqueKeys (toSet m) := by
  unfold UniqueKeys toSet at *
  exact huniq.sublist ((List.filter_sublist m).map Prod.fst)

theorem mem_toSet (j v : String) (m : StrMap) :
    (j, v) ∈ toSet m ↔ (j, v) ∈ m ∧ hasRemovalSuffix v = false := by
  simp [toSet]

/-! ## The claims -/

/-- C1 (deletion guard): whenever the fetch made by the update operation returned
a resource whose deletion timestamp is present, the operation fails with the
error "can't update ping source NAME because it has been marked for deletion"
and calls neither `UpdatePingSource` nor `ResolveSink` nor any builder setter,
whatever flags were supplied. -/
theorem C1_deletion_guard (h : Helpers) (p : KnParams) (cmd : Command)
    (updateFlags : PingUpdateFlags) (sinkFlags : SinkFlags) (args : List String)
    (name : String) (source : PingSource)
    (hfetch : Event.getPingSource name (.ok source) ∈
      (RunE h p cmd updateFlags sinkFlags args).trace)
    (hdel : source.deletionTimestamp.isSome = true) :
    (RunE h p cmd updateFlags sinkFlags args).err =
        some (errorsNew ("can't update ping source " ++ name ++
          " because it has been marked for deletion")) ∧
      (RunE h p cmd updateFlags sinkFlags args).trace.countP Event.isUpdate = 0 ∧
      (RunE h p cmd updateFlags sinkFlags args).trace.countP Event.isResolve = 0 ∧
      (RunE h p cmd updateFlags sinkFlags args).trace.countP Event.isSetter = 0 := by
  obtain ⟨client, ns, dynamicClient, rfl, hclient, hns, hdyn, hget⟩ :=
    RunE_fetched h p cmd updateFlags sinkFlags args name (.ok source) hfetch
  rw [RunE_deleted h p cmd updateFlags sinkFlags client dynamicClient name ns source
    hclient hns hdyn hget hdel]
  simp [deletionError, Event.isUpdate, Event.isResolve, Event.isSetter]

/-- Witness of C1: a stored PingSource marked for deletion, with the schedule and
sink flags set. -/
theorem C1_deletion_guard_witness :
    (Event.getPingSource "my-ping" (.ok deletedSource) ∈
          (RunE (demoHelpers (.ok ("hi", "")) (.ok [])) (demoParams (demoClient (.ok deletedSource) none))
            (demoCmd ["schedule", "sink"]) demoFlags (demoSink (.ok ⟨"ksvc:new"⟩))
            ["my-ping"]).trace ∧
        deletedSource.deletionTimestamp.isSome = true) ∧
      (RunE (demoHelpers (.ok ("hi", "")) (.ok [])) (demoParams (demoClient (.ok deletedSource) none))
          (demoCmd ["schedule", "sink"]) demoFlags (demoSink (.ok ⟨"ksvc:new"⟩))
          ["my-ping"]).err =
        some (errorsNew
          "can't update ping source my-ping because it has been marked for deletion") :=
  ⟨⟨by decide, by decide⟩,
    (C1_deletion_guard _ _ _ _ _ _ "my-ping" deletedSource (by decide) (by decide)).1⟩

/-- C2 (no-op): when none of the flags schedule, data, sink, ce-override is
explicitly set, the update operation calls no builder setter, every resource it
submits to `UpdatePingSource` is identical to the resource `GetPingSource`
returned, and it does submit that resource once the fetched resource has no
deletion timestamp and payload validation succeeds. -/
theorem C2_noop (h : Helpers) (p : KnParams) (cmd : Command)
    (updateFlags : PingUpdateFlags) (sinkFlags : SinkFlags) (args : List String)
    (hs : cmd.Changed "schedule" = false) (hd : cmd.Changed "data" = false)
    (hk : cmd.Changed "sink" = false) (hc : cmd.Changed "ce-override" = false) :
    (RunE h p cmd updateFlags sinkFlags args).trace.countP Event.isSetter = 0 ∧
      (∀ name source built e,
        Event.getPingSource name (.ok source) ∈
            (RunE h p cmd updateFlags sinkFlags args).trace →
          Event.updatePingSource built e ∈ (RunE h p cmd updateFlags sinkFlags args).trace →
          built = source) ∧
      (∀ name source,
        Event.getPingSource name (.ok source) ∈
            (RunE h p cmd updateFlags sinkFlags args).trace →
          source.deletionTimestamp = none →
          (∃ fields, h.getDataFields updateFlags = .ok fields) →
          ∃ e, Event.updatePingSource source e ∈
            (RunE h p cmd updateFlags sinkFlags args).trace) := by
  have hbuilt : ∀ name source built e,
      Event.getPingSource name (.ok source) ∈
          (RunE h p cmd updateFlags sinkFlags args).trace →
        Event.updatePingSource built e ∈ (RunE h p cmd updateFlags sinkFlags args).trace →
        built = source := by
    intro name source built e hget hupd
    obtain ⟨ns, dynamicClient, -, -, rfl⟩ :=
      RunE_built h p cmd updateFlags sinkFlags args name source built e hget hupd
    simp only [ceApplied, sinkApplied, dataApplied, scheduleApplied, hs, hd, hk, hc,
      Bool.false_eq_true, if_false]
    split <;> rfl
  refine ⟨?_, hbuilt, ?_⟩
  · rcases RunE_shape h p cmd updateFlags sinkFlags args with ⟨e, he⟩ |
      ⟨name, client, ns, dynamicClient, rfl, hclient, hns, hdyn⟩
    · rw [he]; simp
    · cases hget : client.GetPingSource name with
      | error e =>
        rw [RunE_fetchError h p cmd updateFlags sinkFlags client dynamicClient name ns e
          hclient hns hdyn hget]
        simp [Event.isSetter]
      | ok source =>
        cases hdel : source.markedForDeletion with
        | true =>
          rw [RunE_deleted h p cmd updateFlags sinkFlags client dynamicClient name ns source
            hclient hns hdyn hget hdel]
          simp [Event.isSetter]
        | false =>
          rw [RunE_live h p cmd updateFlags sinkFlags client dynamicClient name ns source
            hclient hns hdyn hget hdel]
          simp [Outcome.after, List.countP_cons, Event.isSetter,
            scheduleStage_setters h cmd updateFlags sinkFlags client dynamicClient name ns
              source hs hd hk hc]
  · intro name source hget hlive hvalid
    obtain ⟨client, ns, dynamicClient, rfl, hclient, hns, hdyn, hfetch⟩ :=
      RunE_fetched h p cmd updateFlags sinkFlags args name (.ok source) hget
    have hdel : source.markedForDeletion = false := by
      simp [PingSource.markedForDeletion, hlive]
    have hrun := RunE_live h p cmd updateFlags sinkFlags client dynamicClient name ns source
      hclient hns hdyn hfetch hdel
    have hcount := scheduleStage_updates h cmd updateFlags sinkFlags client dynamicClient
      name ns source
    have hpass : (succeeded (h.getDataFields updateFlags) &&
        (sinkPasses cmd sinkFlags dynamicClient ns && cePasses h cmd updateFlags)) = true := by
      simp [sinkPasses, cePasses, hk, hc, (succeeded_iff _).2 hvalid]
    rw [hpass, if_pos rfl] at hcount
    have hpos : 0 < (scheduleStage h cmd updateFlags sinkFlags client dynamicClient name ns
        source).trace.countP Event.isUpdate := by omega
    obtain ⟨ev, hev, hisUpdate⟩ := List.countP_pos_iff.1 hpos
    cases ev with
    | updatePingSource built e =>
      have hmem : Event.updatePingSource built e ∈
          (RunE h p cmd updateFlags sinkFlags [name]).trace := by
        rw [hrun]; simp [Outcome.after, hev]
      obtain rfl := hbuilt name source built e hget hmem
      exact ⟨e, hmem⟩
    | _ => simp [Event.isUpdate] at hisUpdate

/-- Witness of C2: no flag set on a stored PingSource. -/
theorem C2_noop_witness :
    ((demoCmd []).Changed "schedule" = false ∧ (demoCmd []).Changed "data" = false ∧
        (demoCmd []).Changed "sink" = false ∧ (demoCmd []).Changed "ce-override" = false) ∧
      (RunE (demoHelpers (.ok ("hi", "")) (.ok [])) (demoParams (demoClient (.ok demoSource) none))
          (demoCmd []) demoFlags (demoSink (.ok ⟨"ksvc:new"⟩)) ["my-ping"]).trace =
        [Event.getPingSource "my-ping" (.ok demoSource), Event.getDataFields (.ok ("hi", "")),
          Event.updatePingSource demoSource none,
          Event.output "Ping source 'my-ping' updated in namespace 'default'.\n"] ∧
      (RunE (demoHelpers (.ok ("hi", "")) (.ok [])) (demoParams (demoClient (.ok demoSource) none))
          (demoCmd []) demoFlags (demoSink (.ok ⟨"ksvc:new"⟩))
          ["my-ping"]).trace.countP Event.isSetter = 0 ∧
      ∃ e, Event.updatePingSource demoSource e ∈
        (RunE (demoHelpers (.ok ("hi", "")) (.ok [])) (demoParams (demoClient (.ok demoSource) none))
          (demoCmd []) demoFlags (demoSink (.ok ⟨"ksvc:new"⟩)) ["my-ping"]).trace :=
  ⟨⟨by decide, by decide, by decide, by decide⟩, by decide,
    (C2_noop (demoHelpers (.ok ("hi", "")) (.ok [])) (demoParams (demoClient (.ok demoSource) none))
      (demoCmd []) demoFlags (demoSink (.ok ⟨"ksvc:new"⟩)) ["my-ping"]
      (by decide) (by decide) (by decide) (by decide)).1,
    (C2_noop (demoHelpers (.ok ("hi", "")) (.ok [])) (demoParams (demoClient (.ok demoSource) none))
      (demoCmd []) demoFlags (demoSink (.ok ⟨"ksvc:new"⟩)) ["my-ping"]
      (by decide) (by decide) (by decide) (by decide)).2.2 "my-ping" demoSource
      (by decide) rfl ⟨("hi", ""), rfl⟩⟩

/-- C3 (field isolation): when exactly one of the flags schedule, data, sink,
ce-override is explicitly set, every resource submitted to `UpdatePingSource`
agrees with the fetched resource on every field other than the one of that
flag (for the data flag: other than the two payload variants). -/
theorem C3_field_isolation (h : Helpers) (p : KnParams) (cmd : Command)
    (updateFlags : PingUpdateFlags) (sinkFlags : SinkFlags) (args : List String)
    (name : String) (source built : PingSource) (e : Option GoError)
    (hget : Event.getPingSource name (.ok source) ∈
      (RunE h p cmd updateFlags sinkFlags args).trace)
    (hupd : Event.updatePingSource built e ∈ (RunE h p cmd updateFlags sinkFlags args).trace) :
    (cmd.Changed "schedule" = true ∧ cmd.Changed "data" = false ∧
        cmd.Changed "sink" = false ∧ cmd.Changed "ce-override" = false →
      built = { source with schedule := built.schedule }) ∧
    (cmd.Changed "schedule" = false ∧ cmd.Changed "data" = true ∧
        cmd.Changed "sink" = false ∧ cmd.Changed "ce-override" = false →
      built = { source with data := built.data, dataBase64 := built.dataBase64 }) ∧
    (cmd.Changed "schedule" = false ∧ cmd.Changed "data" = false ∧
        cmd.Changed "sink" = true ∧ cmd.Changed "ce-override" = false →
      built = { source with sink := built.sink }) ∧
    (cmd.Changed "schedule" = false ∧ cmd.Changed "data" = false ∧
        cmd.Changed "sink" = false ∧ cmd.Changed "ce-override" = true →
      built = { source with ceOverrides := built.ceOverrides }) := by
  obtain ⟨ns, dynamicClient, -, -, rfl⟩ :=
    RunE_built h p cmd updateFlags sinkFlags args name source built e hget hupd
  refine ⟨?_, ?_, ?_, ?_⟩
  all_goals
    rintro ⟨hs, hd, hk, hc⟩
    simp only [ceApplied, sinkApplied, dataApplied, scheduleApplied, hs, hd, hk, hc,
      Bool.false_eq_true, if_false, if_true]
    repeat' split
    all_goals rfl

/-- Witness of C3: only the schedule flag is set. -/
theorem C3_field_isolation_witness :
    (Event.getPingSource "my-ping" (.ok demoSource) ∈
        (RunE (demoHelpers (.ok ("hi", "")) (.ok [])) (demoParams (demoClient (.ok demoSource) none))
          (demoCmd ["schedule"]) demoFlags (demoSink (.ok ⟨"ksvc:new"⟩)) ["my-ping"]).trace ∧
      Event.updatePingSource { demoSource with schedule := "* * * * *" } none ∈
        (RunE (demoHelpers (.ok ("hi", "")) (.ok [])) (demoParams (demoClient (.ok demoSource) none))
          (demoCmd ["schedule"]) demoFlags (demoSink (.ok ⟨"ksvc:new"⟩)) ["my-ping"]).trace) ∧
      ({ demoSource with schedule := "* * * * *" } : PingSource) =
        { demoSource with
          schedule := ({ demoSource with schedule := "* * * * *" } : PingSource).schedule } :=
  ⟨⟨by decide, by decide⟩,
    (C3_field_isolation (demoHelpers (.ok ("hi", "")) (.ok []))
      (demoParams (demoClient (.ok demoSource) none)) (demoCmd ["schedule"]) demoFlags
      (demoSink (.ok ⟨"ksvc:new"⟩)) ["my-ping"] "my-ping" demoSource
      { demoSource with schedule := "* * * * *" } none (by decide) (by decide)).1
      ⟨by decide, by decide, by decide, by decide⟩⟩

/-- C4 (override merge, removal always wins): with the ce-override flag set and a
request that parses, the override map of the submitted resource is the merge of
the fetched map with the request, and every key the request marks for removal
is absent from it, whether or not the fetched map had the key and whether or
not the request also sets it to a plain value. -/
theorem C4_removal_wins (h : Helpers) (p : KnParams) (cmd : Command)
    (updateFlags : PingUpdateFlags) (sinkFlags : SinkFlags) (args : List String)
    (name : String) (source built : PingSource) (e : Option GoError) (requested : StrMap)
    (hget : Event.getPingSource name (.ok source) ∈
      (RunE h p cmd updateFlags sinkFlags args).trace)
    (hupd : Event.updatePingSource built e ∈ (RunE h p cmd updateFlags sinkFlags args).trace)
    (hc : cmd.Changed "ce-override" = true)
    (hparse : h.MapFromArrayAllowingSingles updateFlags.ceOverrides "=" = .ok requested) :
    built.ceOverrides = merge source.ceOverrides requested ∧
      ∀ k ∈ toRemove requested, mapGet k built.ceOverrides = none := by
  have hmerge := RunE_merged h p cmd updateFlags sinkFlags args name source built e requested
    hget hupd hc hparse
  refine ⟨hmerge, ?_⟩
  intro k hk
  rw [hmerge, merge, mapGet_deleteKeys, if_pos hk]

/-- Witness of C4: existing `a:1, b:2` with a removal marker for `a` gives `b:2`;
existing `b:2` with a removal marker for `z` stays `b:2`; a key both set and
marked for removal is absent. -/
theorem C4_removal_wins_witness :
    (Event.getPingSource "my-ping" (.ok demoSource) ∈
        (RunE (demoHelpers (.ok ("hi", "")) (.ok [("a", "-")]))
          (demoParams (demoClient (.ok demoSource) none))
          (demoCmd ["ce-override"]) demoFlags (demoSink (.ok ⟨"ksvc:new"⟩)) ["my-ping"]).trace ∧
      Event.updatePingSource { demoSource with ceOverrides := [("b", "2")] } none ∈
        (RunE (demoHelpers (.ok ("hi", "")) (.ok [("a", "-")]))
          (demoParams (demoClient (.ok demoSource) none))
          (demoCmd ["ce-override"]) demoFlags (demoSink (.ok ⟨"ksvc:new"⟩)) ["my-ping"]).trace) ∧
      (({ demoSource with ceOverrides := [("b", "2")] } : PingSource).ceOverrides =
          merge demoSource.ceOverrides [("a", "-")] ∧
        ∀ k ∈ toRemove [("a", "-")],
          mapGet k ({ demoSource with ceOverrides := [("b", "2")] } : PingSource).ceOverrides =
            none) ∧
      merge [("a", "1"), ("b", "2")] [("a", "-")] = [("b", "2")] ∧
      merge [("b", "2")] [("z", "-")] = [("b", "2")] ∧
      merge [("a", "1")] [("a", "2"), ("a-", "-")] = [] :=
  ⟨⟨by decide, by decide⟩,
    C4_removal_wins (demoHelpers (.ok ("hi", "")) (.ok [("a", "-")]))
      (demoParams (demoClient (.ok demoSource) none)) (demoCmd ["ce-override"]) demoFlags
      (demoSink (.ok ⟨"ksvc:new"⟩)) ["my-ping"] "my-ping" demoSource
      { demoSource with ceOverrides := [("b", "2")] } none [("a", "-")]
      (by decide) (by decide) (by decide) rfl,
    by decide, by decide, by decide⟩

/-- C5 (override merge, add and update): with the ce-override flag set and a
request that parses into a map (unique keys), for every key the request does
not mark for removal the override map of the submitted resource holds the
requested plain value when the request sets the key, and the fetched value
(or no value) when it does not. -/
theorem C5_add_update (h : Helpers) (p : KnParams) (cmd : Command)
    (updateFlags : PingUpdateFlags) (sinkFlags : SinkFlags) (args : List String)
    (name : String) (source built : PingSource) (e : Option GoError) (requested : StrMap)
    (hget : Event.getPingSource name (.ok source) ∈
      (RunE h p cmd updateFlags sinkFlags args).trace)
    (hupd : Event.updatePingSource built e ∈ (RunE h p cmd updateFlags sinkFlags args).trace)
    (hc : cmd.Changed "ce-override" = true)
    (hparse : h.MapFromArrayAllowingSingles updateFlags.ceOverrides "=" = .ok requested)
    (huniq : UniqueKeys requested) (k : String) (hk : k ∉ toRemove requested) :
    (∀ v, (k, v) ∈ requested → hasRemovalSuffix v = false →
        mapGet k built.ceOverrides = some v) ∧
      ((∀ v, (k, v) ∈ requested → hasRemovalSuffix v = true) →
        mapGet k built.ceOverrides = mapGet k source.ceOverrides) := by
  have hmerge := RunE_merged h p cmd updateFlags sinkFlags args name source built e requested
    hget hupd hc hparse
  rw [hmerge, merge, mapGet_deleteKeys, if_neg hk]
  constructor
  · intro v hv hplain
    exact mapGet_applyEntries_present k v _ _ (uniqueKeys_toSet _ huniq)
      ((mem_toSet k v requested).2 ⟨hv, hplain⟩)
  · intro hnone
    apply mapGet_applyEntries_absent
    intro v hv
    obtain ⟨hin, hplain⟩ := (mem_toSet k v requested).1 hv
    rw [hnone v hin] at hplain
    cases hplain

/-- Witness of C5: existing `a:1, b:2`, requested `c:3` and `a:9`: key `c` is
inserted; and the two merges of the specification. -/
theorem C5_add_update_witness :
    (Event.getPingSource "my-ping" (.ok demoSource) ∈
        (RunE (demoHelpers (.ok ("hi", "")) (.ok [("c", "3"), ("a", "9")]))
          (demoParams (demoClient (.ok demoSource) none))
          (demoCmd ["ce-override"]) demoFlags (demoSink (.ok ⟨"ksvc:new"⟩)) ["my-ping"]).trace ∧
      Event.updatePingSource
          { demoSource with ceOverrides := [("a", "9"), ("b", "2"), ("c", "3")] } none ∈
        (RunE (demoHelpers (.ok ("hi", "")) (.ok [("c", "3"), ("a", "9")]))
          (demoParams (demoClient (.ok demoSource) none))
          (demoCmd ["ce-override"]) demoFlags (demoSink (.ok ⟨"ksvc:new"⟩)) ["my-ping"]).trace ∧
      UniqueKeys [("c", "3"), ("a", "9")] ∧ "c" ∉ toRemove [("c", "3"), ("a", "9")]) ∧
      (∀ v, ("c", v) ∈ [("c", "3"), ("a", "9")] → hasRemovalSuffix v = false →
        mapGet "c"
          ({ demoSource with ceOverrides := [("a", "9"), ("b", "2"), ("c", "3")] } :
            PingSource).ceOverrides = some v) ∧
      merge [("a", "1")] [("b", "2")] = [("a", "1"), ("b", "2")] ∧
      merge [("a", "1")] [("a", "2")] = [("a", "2")] :=
  ⟨⟨by decide, by decide, by unfold UniqueKeys; decide, by decide⟩,
    (C5_add_update (demoHelpers (.ok ("hi", "")) (.ok [("c", "3"), ("a", "9")]))
      (demoParams (demoClient (.ok demoSource) none)) (demoCmd ["ce-override"]) demoFlags
      (demoSink (.ok ⟨"ksvc:new"⟩)) ["my-ping"] "my-ping" demoSource
      { demoSource with ceOverrides := [("a", "9"), ("b", "2"), ("c", "3")] } none
      [("c", "3"), ("a", "9")]
      (by decide) (by decide) (by decide) rfl (by unfold UniqueKeys; decide) "c" (by decide)).1,
    by decide, by decide⟩

/-- Counterexample to C6 as stated: payload validation fails, yet `GetPingSource`
has been called and the `Schedule` setter invoked before the failure. -/
theorem C6_counterexample :
    ¬ ((∃ e, (demoHelpers (.error payloadError) (.ok [])).getDataFields demoFlags = .error e) →
      (RunE (demoHelpers (.error payloadError) (.ok []))
          (demoParams (demoClient (.ok demoSource) none)) (demoCmd ["schedule"]) demoFlags
          (demoSink (.ok ⟨"ksvc:new"⟩)) ["my-ping"]).trace.countP Event.isStoreCall = 0 ∧
        (RunE (demoHelpers (.error payloadError) (.ok []))
          (demoParams (demoClient (.ok demoSource) none)) (demoCmd ["schedule"]) demoFlags
          (demoSink (.ok ⟨"ksvc:new"⟩)) ["my-ping"]).trace.countP Event.isSetter = 0) := by
  intro hclaim
  have hcount := (hclaim ⟨payloadError, rfl⟩).1
  revert hcount
  decide

/-- C6, amended: when the fetch returned a resource not marked for deletion and
payload validation fails with `e`, the update operation fails with the wrapped
malformed-input error; the calls made up to that point are exactly the one
`GetPingSource`, the `Schedule` setter if and only if the schedule flag was
explicitly set, and the validation itself: no `UpdatePingSource`, no sink
resolution, and no other builder setter. -/
theorem C6_validation_after_fetch (h : Helpers) (p : KnParams) (cmd : Command)
    (updateFlags : PingUpdateFlags) (sinkFlags : SinkFlags) (args : List String)
    (name ns : String) (source : PingSource) (e : GoError)
    (hget : Event.getPingSource name (.ok source) ∈
      (RunE h p cmd updateFlags sinkFlags args).trace)
    (hlive : source.deletionTimestamp = none)
    (hns : p.GetNamespace = .ok ns)
    (hfail : h.getDataFields updateFlags = .error e) :
    (RunE h p cmd updateFlags sinkFlags args).err =
        some (errorsNew ("cannot update PingSource " ++ h.quote name ++ " in namespace " ++
          h.quote ns ++ " because: " ++ e.Error)) ∧
      (RunE h p cmd updateFlags sinkFlags args).trace =
        Event.getPingSource name (.ok source) ::
          ((if cmd.Changed "schedule" then [Event.setSchedule updateFlags.schedule] else []) ++
            [Event.getDataFields (.error e)]) ∧
      (RunE h p cmd updateFlags sinkFlags args).trace.countP Event.isStoreCall = 1 ∧
      (RunE h p cmd updateFlags sinkFlags args).trace.countP Event.isUpdate = 0 ∧
      (RunE h p cmd updateFlags sinkFlags args).trace.countP Event.isResolve = 0 ∧
      (RunE h p cmd updateFlags sinkFlags args).trace.countP Event.isSetter =
        if cmd.Changed "schedule" then 1 else 0 := by
  obtain ⟨client, ns', dynamicClient, rfl, hclient, hns', hdyn, hfetch⟩ :=
    RunE_fetched h p cmd updateFlags sinkFlags args name (.ok source) hget
  rw [hns] at hns'
  obtain rfl : ns = ns' := by simpa using hns'
  have hdel : source.markedForDeletion = false := by
    simp [PingSource.markedForDeletion, hlive]
  rw [RunE_live h p cmd updateFlags sinkFlags client dynamicClient name ns source
    hclient hns hdyn hfetch hdel,
    scheduleStage_invalid h cmd updateFlags sinkFlags client dynamicClient name ns source e hfail]
  by_cases hs : cmd.Changed "schedule" = true <;>
    simp [Outcome.after, dataFieldsError, hs, Event.isStoreCall, Event.isUpdate,
      Event.isResolve, Event.isSetter]

/-- Witness of C6, amended: validation fails with the schedule flag set. -/
theorem C6_validation_after_fetch_witness :
    (Event.getPingSource "my-ping" (.ok demoSource) ∈
        (RunE (demoHelpers (.error payloadError) (.ok []))
          (demoParams (demoClient (.ok demoSource) none)) (demoCmd ["schedule"]) demoFlags
          (demoSink (.ok ⟨"ksvc:new"⟩)) ["my-ping"]).trace ∧
      demoSource.deletionTimestamp = none ∧
      (demoParams (demoClient (.ok demoSource) none)).GetNamespace = .ok "default" ∧
      (demoHelpers (.error payloadError) (.ok [])).getDataFields demoFlags =
        .error payloadError) ∧
      (RunE (demoHelpers (.error payloadError) (.ok []))
          (demoParams (demoClient (.ok demoSource) none)) (demoCmd ["schedule"]) demoFlags
          (demoSink (.ok ⟨"ksvc:new"⟩)) ["my-ping"]).trace =
        [Event.getPingSource "my-ping" (.ok demoSource), Event.setSchedule "* * * * *",
          Event.getDataFields (.error payloadError)] :=
  ⟨⟨by decide, rfl, rfl, rfl⟩,
    (C6_validation_after_fetch (demoHelpers (.error payloadError) (.ok []))
      (demoParams (demoClient (.ok demoSource) none)) (demoCmd ["schedule"]) demoFlags
      (demoSink (.ok ⟨"ksvc:new"⟩)) ["my-ping"] "my-ping" "default" demoSource payloadError
      (by decide) rfl rfl rfl).2.1⟩

/-- Counterexample to C7 as stated: when `UpdatePingSource` itself returns an
error the operation fails, and `UpdatePingSource` has been called once, not
zero times. -/
theorem C7_counterexample :
    ¬ ((RunE (demoHelpers (.ok ("hi", "")) (.ok []))
          (demoParams (demoClient (.ok demoSource) (some storeError))) (demoCmd ["schedule"])
          demoFlags (demoSink (.ok ⟨"ksvc:new"⟩)) ["my-ping"]).err ≠ none →
      (RunE (demoHelpers (.ok ("hi", "")) (.ok []))
          (demoParams (demoClient (.ok demoSource) (some storeError))) (demoCmd ["schedule"])
          demoFlags (demoSink (.ok ⟨"ksvc:new"⟩)) ["my-ping"]).trace.countP
        Event.isUpdate = 0) := by
  decide

/-- C7, amended (no partial writes): an invocation that reaches the store calls
`GetPingSource` exactly once and `UpdatePingSource` at most once;
`UpdatePingSource` is called exactly once if and only if the fetch succeeded,
the resource has no deletion timestamp, payload validation succeeded, sink
resolution succeeded whenever the sink flag was set and override parsing
succeeded whenever the ce-override flag was set; a successful invocation has
called it once; and a failing invocation has either called it zero times or
returns the error of that one call. -/
theorem C7_single_write (h : Helpers) (p : KnParams) (cmd : Command)
    (updateFlags : PingUpdateFlags) (sinkFlags : SinkFlags) (name ns : String)
    (client : PingSourceClient) (dynamicClient : DynamicClient)
    (hclient : p.newPingSourceClient = .ok client) (hns : p.GetNamespace = .ok ns)
    (hdyn : p.NewDynamicClient ns = .ok dynamicClient) :
    (RunE h p cmd updateFlags sinkFlags [name]).trace.countP Event.isGet = 1 ∧
      (RunE h p cmd updateFlags sinkFlags [name]).trace.countP Event.isUpdate ≤ 1 ∧
      ((RunE h p cmd updateFlags sinkFlags [name]).trace.countP Event.isUpdate = 1 ↔
        ∃ source, client.GetPingSource name = .ok source ∧
          source.deletionTimestamp = none ∧
          (∃ fields, h.getDataFields updateFlags = .ok fields) ∧
          (cmd.Changed "sink" = true →
            ∃ destination, sinkFlags.ResolveSink dynamicClient ns = .ok destination) ∧
          (cmd.Changed "ce-override" = true →
            ∃ m, h.MapFromArrayAllowingSingles updateFlags.ceOverrides "=" = .ok m)) ∧
      ((RunE h p cmd updateFlags sinkFlags [name]).err = none →
        (RunE h p cmd updateFlags sinkFlags [name]).trace.countP Event.isUpdate = 1) ∧
      ((RunE h p cmd updateFlags sinkFlags [name]).err ≠ none →
        (RunE h p cmd updateFlags sinkFlags [name]).trace.countP Event.isUpdate = 0 ∨
          ∃ built e,
            Event.updatePingSource built (some e) ∈
                (RunE h p cmd updateFlags sinkFlags [name]).trace ∧
              (RunE h p cmd updateFlags sinkFlags [name]).err = some e) := by
  cases hget : client.GetPingSource name with
  | error e =>
    rw [RunE_fetchError h p cmd updateFlags sinkFlags client dynamicClient name ns e
      hclient hns hdyn hget]
    simp [Event.isGet, Event.isUpdate]
  | ok source =>
    cases hdel : source.markedForDeletion with
    | true =>
      rw [RunE_deleted h p cmd updateFlags sinkFlags client dynamicClient name ns source
        hclient hns hdyn hget hdel]
      have hts : source.deletionTimestamp ≠ none := by
        intro hnone
        simp [PingSource.markedForDeletion, hnone] at hdel
      simp [Event.isGet, Event.isUpdate, hts]
    | false =>
      have hts : source.deletionTimestamp = none := by
        cases hd : source.deletionTimestamp with
        | none => rfl
        | some t => simp [PingSource.markedForDeletion, hd] at hdel
      rw [RunE_live h p cmd updateFlags sinkFlags client dynamicClient name ns source
        hclient hns hdyn hget hdel]
      have hnoGet := scheduleStage_noGet h cmd updateFlags sinkFlags client dynamicClient
        name ns source
      have hcount := scheduleStage_updates h cmd updateFlags sinkFlags client dynamicClient
        name ns source
      have hupd : ((scheduleStage h cmd updateFlags sinkFlags client dynamicClient name ns
          source).after [Event.getPingSource name (.ok source)]).trace.countP Event.isUpdate =
          (scheduleStage h cmd updateFlags sinkFlags client dynamicClient name ns
            source).trace.countP Event.isUpdate := by
        simp [Outcome.after, List.countP_cons, Event.isUpdate]
      have hpass : (succeeded (h.getDataFields updateFlags) &&
            (sinkPasses cmd sinkFlags dynamicClient ns && cePasses h cmd updateFlags)) = true ↔
          (∃ fields, h.getDataFields updateFlags = .ok fields) ∧
            (cmd.Changed "sink" = true →
              ∃ destination, sinkFlags.ResolveSink dynamicClient ns = .ok destination) ∧
            (cmd.Changed "ce-override" = true →
              ∃ m, h.MapFromArrayAllowingSingles updateFlags.ceOverrides "=" = .ok m) := by
        rw [Bool.and_eq_true, Bool.and_eq_true, succeeded_iff, sinkPasses_iff, cePasses_iff]
      refine ⟨?_, ?_, ?_, ?_, ?_⟩
      · simp [Outcome.after, List.countP_cons, Event.isGet, hnoGet]
      · rw [hupd, hcount]
        split <;> omega
      · rw [hupd, hcount]
        constructor
        · intro hone
          refine ⟨source, rfl, hts, hpass.1 ?_⟩
          by_contra hnot
          rw [if_neg hnot] at hone
          omega
        · rintro ⟨source', hsrc, -, hrest⟩
          rw [if_pos (hpass.2 hrest)]
      · intro hok
        rw [hupd]
        obtain ⟨built, hmem⟩ := scheduleStage_ok h cmd updateFlags sinkFlags client
          dynamicClient name ns source hok
        have hpos : 0 < (scheduleStage h cmd updateFlags sinkFlags client dynamicClient name ns
            source).trace.countP Event.isUpdate :=
          List.countP_pos_iff.2 ⟨_, hmem, rfl⟩
        rw [hcount] at hpos ⊢
        split at hpos
        · rw [if_pos (by assumption)]
        · omega
      · exact failsWithoutWrite_after _ _ (by simp [Event.isUpdate])
          (scheduleStage_failsWithoutWrite h cmd updateFlags sinkFlags client dynamicClient
            name ns source)

/-- Witness of C7, amended: an invocation whose client, namespace and dynamic
client are available; the store rejects the update. -/
theorem C7_single_write_witness :
    ((demoParams (demoClient (.ok demoSource) (some storeError))).newPingSourceClient =
          .ok (demoClient (.ok demoSource) (some storeError)) ∧
        (demoParams (demoClient (.ok demoSource) (some storeError))).GetNamespace =
          .ok "default" ∧
        (demoParams (demoClient (.ok demoSource) (some storeError))).NewDynamicClient "default" =
          .ok ⟨"dynamic"⟩) ∧
      (RunE (demoHelpers (.ok ("hi", "")) (.ok []))
          (demoParams (demoClient (.ok demoSource) (some storeError))) (demoCmd ["schedule"])
          demoFlags (demoSink (.ok ⟨"ksvc:new"⟩)) ["my-ping"]).trace.countP Event.isGet = 1 ∧
      (RunE (demoHelpers (.ok ("hi", "")) (.ok []))
          (demoParams (demoClient (.ok demoSource) (some storeError))) (demoCmd ["schedule"])
          demoFlags (demoSink (.ok ⟨"ksvc:new"⟩)) ["my-ping"]).trace.countP Event.isUpdate ≤ 1 :=
  ⟨⟨rfl, rfl, rfl⟩,
    (C7_single_write (demoHelpers (.ok ("hi", "")) (.ok []))
      (demoParams (demoClient (.ok demoSource) (some storeError))) (demoCmd ["schedule"])
      demoFlags (demoSink (.ok ⟨"ksvc:new"⟩)) "my-ping" "default"
      (demoClient (.ok demoSource) (some storeError)) ⟨"dynamic"⟩ rfl rfl rfl).1,
    (C7_single_write (demoHelpers (.ok ("hi", "")) (.ok []))
      (demoParams (demoClient (.ok demoSource) (some storeError))) (demoCmd ["schedule"])
      demoFlags (demoSink (.ok ⟨"ksvc:new"⟩)) "my-ping" "default"
      (demoClient (.ok demoSource) (some storeError)) ⟨"dynamic"⟩ rfl rfl rfl).2.1⟩

/-- C8 (opaque propagation): whenever `GetPingSource` fails, or the sink flag is
explicitly set and `ResolveSink` fails, or `UpdatePingSource` fails, the error
returned by the update operation is exactly the error value that call returned,
and no confirmation is written to the output. -/
theorem C8_error_propagation (h : Helpers) (p : KnParams) (cmd : Command)
    (updateFlags : PingUpdateFlags) (sinkFlags : SinkFlags) (args : List String)
    (err : GoError)
    (hfail :
      (∃ name, Event.getPingSource name (.error err) ∈
        (RunE h p cmd updateFlags sinkFlags args).trace) ∨
      (cmd.Changed "sink" = true ∧
        ∃ ns, Event.resolveSink ns (.error err) ∈
          (RunE h p cmd updateFlags sinkFlags args).trace) ∨
      (∃ built, Event.updatePingSource built (some err) ∈
        (RunE h p cmd updateFlags sinkFlags args).trace)) :
    (RunE h p cmd updateFlags sinkFlags args).err = some err ∧
      (RunE h p cmd updateFlags sinkFlags args).trace.countP Event.isOutput = 0 := by
  rcases hfail with ⟨name, hmem⟩ | ⟨-, ns, hmem⟩ | ⟨built, hmem⟩
  · exact RunE_failure h p cmd updateFlags sinkFlags args _ hmem err rfl
  · exact RunE_failure h p cmd updateFlags sinkFlags args _ hmem err rfl
  · exact RunE_failure h p cmd updateFlags sinkFlags args _ hmem err rfl

/-- Witness of C8: a failing fetch, a failing sink resolution and a failing
update, each returned unchanged. -/
theorem C8_error_propagation_witness :
    ((∃ name, Event.getPingSource name (.error storeError) ∈
        (RunE (demoHelpers (.ok ("hi", "")) (.ok []))
          (demoParams (demoClient (.error storeError) none)) (demoCmd ["sink"]) demoFlags
          (demoSink (.ok ⟨"ksvc:new"⟩)) ["my-ping"]).trace) ∧
      (RunE (demoHelpers (.ok ("hi", "")) (.ok []))
          (demoParams (demoClient (.error storeError) none)) (demoCmd ["sink"]) demoFlags
          (demoSink (.ok ⟨"ksvc:new"⟩)) ["my-ping"]).err = some storeError) ∧
    (((demoCmd ["sink"]).Changed "sink" = true ∧
        ∃ ns, Event.resolveSink ns (.error sinkError) ∈
          (RunE (demoHelpers (.ok ("hi", "")) (.ok []))
            (demoParams (demoClient (.ok demoSource) none)) (demoCmd ["sink"]) demoFlags
            (demoSink (.error sinkError)) ["my-ping"]).trace) ∧
      (RunE (demoHelpers (.ok ("hi", "")) (.ok []))
          (demoParams (demoClient (.ok demoSource) none)) (demoCmd ["sink"]) demoFlags
          (demoSink (.error sinkError)) ["my-ping"]).err = some sinkError) ∧
    ((∃ built, Event.updatePingSource built (some storeError) ∈
        (RunE (demoHelpers (.ok ("hi", "")) (.ok []))
          (demoParams (demoClient (.ok demoSource) (some storeError))) (demoCmd []) demoFlags
          (demoSink (.ok ⟨"ksvc:new"⟩)) ["my-ping"]).trace) ∧
      (RunE (demoHelpers (.ok ("hi", "")) (.ok []))
          (demoParams (demoClient (.ok demoSource) (some storeError))) (demoCmd []) demoFlags
          (demoSink (.ok ⟨"ksvc:new"⟩)) ["my-ping"]).err = some storeError) :=
  ⟨⟨⟨"my-ping", by decide⟩,
      (C8_error_propagation (demoHelpers (.ok ("hi", "")) (.ok []))
        (demoParams (demoClient (.error storeError) none)) (demoCmd ["sink"]) demoFlags
        (demoSink (.ok ⟨"ksvc:new"⟩)) ["my-ping"] storeError
        (Or.inl ⟨"my-ping", by decide⟩)).1⟩,
    ⟨⟨by decide, "default", by decide⟩,
      (C8_error_propagation (demoHelpers (.ok ("hi", "")) (.ok []))
        (demoParams (demoClient (.ok demoSource) none)) (demoCmd ["sink"]) demoFlags
        (demoSink (.error sinkError)) ["my-ping"] sinkError
        (Or.inr (Or.inl ⟨by decide, "default", by decide⟩))).1⟩,
    ⟨⟨demoSource, by decide⟩,
      (C8_error_propagation (demoHelpers (.ok ("hi", "")) (.ok []))
        (demoParams (demoClient (.ok demoSource) (some storeError))) (demoCmd []) demoFlags
        (demoSink (.ok ⟨"ksvc:new"⟩)) ["my-ping"] storeError
        (Or.inr (Or.inr ⟨demoSource, by decide⟩))).1⟩⟩

/-- Counterexample to C9 as stated: with the data flag set and validation
succeeding, the payload is written by two setter calls, `Data` and
`DataBase64`, not by one. -/
theorem C9_counterexample :
    ¬ ((demoCmd ["data"]).Changed "data" = true ∧
        (demoHelpers (.ok ("hi", "")) (.ok [])).getDataFields demoFlags = .ok ("hi", "") →
      (RunE (demoHelpers (.ok ("hi", "")) (.ok []))
          (demoParams (demoClient (.ok demoSource) none)) (demoCmd ["data"]) demoFlags
          (demoSink (.ok ⟨"ksvc:new"⟩)) ["my-ping"]).trace.countP
        Event.isPayloadSetter = 1) := by
  intro hclaim
  have hcount := hclaim ⟨by decide, rfl⟩
  revert hcount
  decide

/-- C9, amended: with the data flag explicitly set and validation returning the
pair `(data, dataBase64)`, two setter calls occur for the payload, `Data(data)`
and `DataBase64(dataBase64)`, each overwriting one variant; in the resource
submitted to `UpdatePingSource` the raw-text payload is `data` and the base64
payload is `dataBase64`, whichever variant the fetched resource carried, so
the two are never both set as long as validation returns at most one non-empty
variant. -/
theorem C9_payload_setters (h : Helpers) (p : KnParams) (cmd : Command)
    (updateFlags : PingUpdateFlags) (sinkFlags : SinkFlags) (args : List String)
    (built : PingSource) (e : Option GoError) (data dataBase64 : String)
    (hd : cmd.Changed "data" = true)
    (hv : h.getDataFields updateFlags = .ok (data, dataBase64))
    (hupd : Event.updatePingSource built e ∈ (RunE h p cmd updateFlags sinkFlags args).trace) :
    (RunE h p cmd updateFlags sinkFlags args).trace.countP Event.isPayloadSetter = 2 ∧
      Event.setData data ∈ (RunE h p cmd updateFlags sinkFlags args).trace ∧
      Event.setDataBase64 dataBase64 ∈ (RunE h p cmd updateFlags sinkFlags args).trace ∧
      built.data = data ∧ built.dataBase64 = dataBase64 ∧
      (data = "" ∨ dataBase64 = "" → built.data = "" ∨ built.dataBase64 = "") := by
  obtain ⟨name, client, ns, dynamicClient, source, rfl, hclient, hns, hdyn, hget, hlive, hrun⟩ :=
    RunE_submitted h p cmd updateFlags sinkFlags args built e hupd
  have hfetch : Event.getPingSource name (.ok source) ∈
      (RunE h p cmd updateFlags sinkFlags [name]).trace := by
    rw [hrun]; simp [Outcome.after]
  obtain ⟨ns', dynamicClient', -, -, hbuilt⟩ :=
    RunE_built h p cmd updateFlags sinkFlags [name] name source built e hfetch hupd
  have hdata : built.data = data ∧ built.dataBase64 = dataBase64 := by
    rw [hbuilt]
    unfold PingSourceBuilder.Build
    rw [(ceApplied_payload h cmd updateFlags _).1, (ceApplied_payload h cmd updateFlags _).2,
      (sinkApplied_payload cmd sinkFlags dynamicClient' ns' _).1,
      (sinkApplied_payload cmd sinkFlags dynamicClient' ns' _).2]
    simp [dataApplied, hv, hd, PingSourceBuilder.Data, PingSourceBuilder.DataBase64]
  have htrace : (RunE h p cmd updateFlags sinkFlags [name]).trace =
      Event.getPingSource name (.ok source) ::
        ((if cmd.Changed "schedule" then [Event.setSchedule updateFlags.schedule] else []) ++
          ([Event.getDataFields (.ok (data, dataBase64)), Event.setData data,
              Event.setDataBase64 dataBase64] ++
            (sinkStage h cmd updateFlags sinkFlags client dynamicClient name ns
              (((scheduleApplied cmd updateFlags
                (NewPingSourceBuilderFromExisting source)).Data data).DataBase64
                  dataBase64)).trace)) := by
    rw [hrun]
    simp only [Outcome.after, scheduleStage_trace,
      dataStage_payloadSetters h cmd updateFlags sinkFlags client dynamicClient name ns _
        data dataBase64 hv hd]
    rfl
  refine ⟨?_, ?_, ?_, hdata.1, hdata.2, ?_⟩
  · rw [htrace]
    by_cases hs : cmd.Changed "schedule" = true <;>
      simp [hs, List.countP_cons, List.countP_append, Event.isPayloadSetter,
        sinkStage_payloadSetters]
  · rw [htrace]; simp
  · rw [htrace]; simp
  · rw [hdata.1, hdata.2]
    exact id

/-- Witness of C9, amended: a stored PingSource with a raw-text payload is
updated to a base64 payload. -/
theorem C9_payload_setters_witness :
    ((demoCmd ["data"]).Changed "data" = true ∧
      (demoHelpers (.ok ("", "aGk=")) (.ok [])).getDataFields demoFlags = .ok ("", "aGk=") ∧
      Event.updatePingSource { demoSource with data := "", dataBase64 := "aGk=" } none ∈
        (RunE (demoHelpers (.ok ("", "aGk=")) (.ok []))
          (demoParams (demoClient (.ok demoSource) none)) (demoCmd ["data"]) demoFlags
          (demoSink (.ok ⟨"ksvc:new"⟩)) ["my-ping"]).trace) ∧
      (RunE (demoHelpers (.ok ("", "aGk=")) (.ok []))
          (demoParams (demoClient (.ok demoSource) none)) (demoCmd ["data"]) demoFlags
          (demoSink (.ok ⟨"ksvc:new"⟩)) ["my-ping"]).trace.countP Event.isPayloadSetter = 2 :=
  ⟨⟨by decide, rfl, by decide⟩,
    (C9_payload_setters (demoHelpers (.ok ("", "aGk=")) (.ok []))
      (demoParams (demoClient (.ok demoSource) none)) (demoCmd ["data"]) demoFlags
      (demoSink (.ok ⟨"ksvc:new"⟩)) ["my-ping"]
      { demoSource with data := "", dataBase64 := "aGk=" } none "" "aGk="
      (by decide) rfl (by decide)).1⟩

/-- C10 (payload validation runs unconditionally): in every invocation that passes
the fetch and the deletion guard, `getDataFields` is evaluated on the flag
values whether or not the data flag was explicitly set; whenever it returns an
error `e` the operation fails with the wrapped error "cannot update PingSource
NAME in namespace NAMESPACE because: e" (name and namespace rendered by the
`%q` verb) and calls neither `ResolveSink` nor `UpdatePingSource`, whatever
flags are set. -/
theorem C10_validation_unconditional (h : Helpers) (p : KnParams) (cmd : Command)
    (updateFlags : PingUpdateFlags) (sinkFlags : SinkFlags) (args : List String)
    (name ns : String) (source : PingSource)
    (hget : Event.getPingSource name (.ok source) ∈
      (RunE h p cmd updateFlags sinkFlags args).trace)
    (hlive : source.deletionTimestamp = none)
    (hns : p.GetNamespace = .ok ns) :
    Event.getDataFields (h.getDataFields updateFlags) ∈
        (RunE h p cmd updateFlags sinkFlags args).trace ∧
      ∀ e, h.getDataFields updateFlags = .error e →
        (RunE h p cmd updateFlags sinkFlags args).err =
            some (errorsNew ("cannot update PingSource " ++ h.quote name ++ " in namespace " ++
              h.quote ns ++ " because: " ++ e.Error)) ∧
          (RunE h p cmd updateFlags sinkFlags args).trace.countP Event.isResolve = 0 ∧
          (RunE h p cmd updateFlags sinkFlags args).trace.countP Event.isUpdate = 0 := by
  obtain ⟨client, ns', dynamicClient, rfl, hclient, hns', hdyn, hfetch⟩ :=
    RunE_fetched h p cmd updateFlags sinkFlags args name (.ok source) hget
  rw [hns] at hns'
  obtain rfl : ns = ns' := by simpa using hns'
  have hdel : source.markedForDeletion = false := by
    simp [PingSource.markedForDeletion, hlive]
  rw [RunE_live h p cmd updateFlags sinkFlags client dynamicClient name ns source
    hclient hns hdyn hfetch hdel]
  refine ⟨?_, ?_⟩
  · simp [Outcome.after, scheduleStage_validates]
  · intro e hfail
    rw [scheduleStage_invalid h cmd updateFlags sinkFlags client dynamicClient name ns source
      e hfail]
    by_cases hs : cmd.Changed "schedule" = true <;>
      simp [Outcome.after, dataFieldsError, hs, Event.isUpdate, Event.isResolve]

/-- Witness of C10: validation fails although only the schedule flag is set; the
returned message quotes name and namespace. -/
theorem C10_validation_unconditional_witness :
    (Event.getPingSource "my-ping" (.ok demoSource) ∈
        (RunE (demoHelpers (.error payloadError) (.ok []))
          (demoParams (demoClient (.ok demoSource) none)) (demoCmd ["schedule"]) demoFlags
          (demoSink (.ok ⟨"ksvc:new"⟩)) ["my-ping"]).trace ∧
      demoSource.deletionTimestamp = none ∧
      (demoParams (demoClient (.ok demoSource) none)).GetNamespace = .ok "default") ∧
      Event.getDataFields (.error payloadError) ∈
        (RunE (demoHelpers (.error payloadError) (.ok []))
          (demoParams (demoClient (.ok demoSource) none)) (demoCmd ["schedule"]) demoFlags
          (demoSink (.ok ⟨"ksvc:new"⟩)) ["my-ping"]).trace ∧
      (RunE (demoHelpers (.error payloadError) (.ok []))
          (demoParams (demoClient (.ok demoSource) none)) (demoCmd ["schedule"]) demoFlags
          (demoSink (.ok ⟨"ksvc:new"⟩)) ["my-ping"]).err =
        some (errorsNew
          "cannot update PingSource \"my-ping\" in namespace \"default\" because: invalid payload") :=
  ⟨⟨by decide, rfl, rfl⟩,
    (C10_validation_unconditional (demoHelpers (.error payloadError) (.ok []))
      (demoParams (demoClient (.ok demoSource) none)) (demoCmd ["schedule"]) demoFlags
      (demoSink (.ok ⟨"ksvc:new"⟩)) ["my-ping"] "my-ping" "default" demoSource
      (by decide) rfl rfl).1,
    ((C10_validation_unconditional (demoHelpers (.error payloadError) (.ok []))
      (demoParams (demoClient (.ok demoSource) none)) (demoCmd ["schedule"]) demoFlags
      (demoSink (.ok ⟨"ksvc:new"⟩)) ["my-ping"] "my-ping" "default" demoSource
      (by decide) rfl rfl).2 payloadError rfl).1⟩

end PingUpdate
